import Mathlib

/-!
Account authentication lifecycle of `MinecraftAccount`.

A shallow embedding of `launcher/minecraft/auth/MinecraftAccount.cpp`:
the account record (`AccountData`), the controller object (`MinecraftAccount`)
with its single in-flight task slot, the start operations `login*` and `refresh`,
the completion handlers `authSucceeded` / `authFailed`, the refresh heuristic
`shouldRefresh`, the session projection `fillSession`, and the factories
`createLocal` / `createElyby` with the offline UUID derivation `uuidFromUsername`.

Conventions of the embedding

* A member function that mutates `this` is a function returning the new object.
* `emit sig()` appends `sig` to the `signals` log of the object, so the order
  of the log is the order of emission.
* `QString` is `String`; the null `QString()` is the empty string.
* `Q_ASSERT` depends on the build, so a method that contains it takes the flag
  `asserts`: `true` for a build with assertions, `false` for one with `QT_NO_DEBUG`.
* `QDateTime` is `Option Int`: whole seconds since the epoch, `none` being the
  invalid (default constructed) date-time.
-/

/-! ## Library types -/

/-- A `QDateTime`, in whole seconds; `none` is the invalid date-time. -/
abbrev QDateTime := Option Int

namespace QDateTime

/-- The Qt predicate `QDateTime::isValid`. -/
def isValid (d : QDateTime) : Bool := d.isSome

/-- The Qt function `QDateTime::addSecs`: an invalid date-time stays invalid. -/
def addSecs (d : QDateTime) (s : Int) : QDateTime :=
  match d with
  | some t => some (t + s)
  | none => none

/-- The Qt function `QDateTime::secsTo`: seconds from `d` to `other`, and `0` when
either of the two is invalid. -/
def secsTo (d other : QDateTime) : Int :=
  match d, other with
  | some t, some u => u - t
  | _, _ => 0

end QDateTime

namespace Katabasis

/-- The enum `Katabasis::Validity`. -/
inductive Validity where
  | None
  | Assumed
  | Certain
  deriving DecidableEq, Repr

/-- Modelled from the spec: the struct `Katabasis::Token` is declared in the
katabasis library headers, which are not among the sources. The fields are the
spec's Token (`value`, `refreshValue`, `validity`, `issuedAt`, `expiresAt`,
`extra`) under the names the source uses for them. -/
structure Token where
  issueInstant : QDateTime
  notAfter : QDateTime
  token : String
  refresh_token : String
  extra : List (String × String)
  validity : Validity
  deriving DecidableEq, Repr

end Katabasis

/-! ## The account record -/

/-- The enum `AccountType`: the provider of an account. `MSA` is the spec's
NativeOAuth, `Mojang` its LegacyPassword, `Elyby` its ThirdPartyCompatible. -/
inductive AccountType where
  | MSA
  | Mojang
  | Local
  | Elyby
  deriving DecidableEq, Repr

/-- Modelled from the spec: the struct `MinecraftProfile` (AccountData.h is not
among the sources); the spec's `profile: { id, name, skinBytes, validity }`. -/
structure MinecraftProfile where
  id : String
  name : String
  skin : List Nat
  validity : Katabasis.Validity
  deriving DecidableEq, Repr

/-- Modelled from the spec: the struct `MinecraftEntitlement` (AccountData.h is
not among the sources); the spec's `entitlement: { ownsGame, canPlay }`. -/
structure MinecraftEntitlement where
  ownsMinecraft : Bool
  canPlayMinecraft : Bool
  deriving DecidableEq, Repr

/-- Modelled from the spec: the struct `AccountData` (AccountData.h is not among
the sources); the spec's Account Record without the controller's fields, under
the names the source uses. -/
structure AccountData where
  internalId : String
  type : AccountType
  msaToken : Katabasis.Token
  yggdrasilToken : Katabasis.Token
  minecraftProfile : MinecraftProfile
  minecraftEntitlement : MinecraftEntitlement
  validity_ : Katabasis.Validity
  deriving DecidableEq, Repr

/-- Modelled from the spec: the accessor `AccountData::profileId` (AccountData.cpp
is not among the sources); the spec reads the profile id as `profile.id`. -/
def AccountData.profileId (d : AccountData) : String := d.minecraftProfile.id

/-! ## Tasks -/

/-- The enum `AccountTaskState`, with the eight states `authFailed` switches on. -/
inductive AccountTaskState where
  | STATE_CREATED
  | STATE_WORKING
  | STATE_SUCCEEDED
  | STATE_OFFLINE
  | STATE_FAILED_SOFT
  | STATE_FAILED_MUST_MIGRATE
  | STATE_FAILED_HARD
  | STATE_FAILED_GONE
  deriving DecidableEq, Repr

/-- The concrete task classes the controller constructs, with the constructor
arguments other than the pointer to the account data. -/
inductive TaskKind where
  | MojangLogin (password : String)
  | MSAInteractive
  | LocalLogin
  | ElybyLogin (password : String)
  | MSASilent
  | MojangRefresh
  | LocalRefresh
  | ElybyRefresh
  deriving DecidableEq, Repr

/-- An `AccountTask` object: which class it is and the state it is in. -/
structure AccountTask where
  kind : TaskKind
  m_taskState : AccountTaskState
  deriving DecidableEq, Repr

/-- The accessor `AccountTask::taskState`. -/
def AccountTask.taskState (t : AccountTask) : AccountTaskState := t.m_taskState

/-! ## The controller object -/

/-- The Qt signals of `MinecraftAccount`. -/
inductive Signal where
  | changed
  | activityChanged (active : Bool)
  deriving DecidableEq, Repr

/-- A `MinecraftAccount` object: the account record, the in-flight task slot
(`none` is the null pointer), the use counter inherited from `Usable`, and the
log of the signals emitted so far, oldest first. -/
structure MinecraftAccount where
  data : AccountData
  m_currentTask : Option AccountTask
  m_useCounter : Nat
  signals : List Signal
  deriving DecidableEq, Repr

namespace MinecraftAccount

/-- The statement `emit s`: the signal is appended to the log. -/
def emit (a : MinecraftAccount) (s : Signal) : MinecraftAccount :=
  { a with signals := a.signals ++ [s] }

/-- Modelled from the spec: `isMSA()` is defined in MinecraftAccount.h, which is
not among the sources; the spec selects the native token exactly for the
NativeOAuth provider type. -/
def isMSA (a : MinecraftAccount) : Bool := a.data.type == AccountType.MSA

/-- Modelled from the spec: `Usable::isInUse` (Usable.h is not among the
sources); the spec's derived predicate `inUse := useCount > 0`. -/
def isInUse (a : MinecraftAccount) : Bool := decide (0 < a.m_useCounter)

/-- Modelled from the spec: `ownsMinecraft()` is defined in MinecraftAccount.h,
which is not among the sources; the spec reads it as `entitlement.ownsGame`. -/
def ownsMinecraft (a : MinecraftAccount) : Bool := a.data.minecraftEntitlement.ownsMinecraft

/-- Modelled from the spec: `hasProfile()` is defined in MinecraftAccount.h,
which is not among the sources; the spec reads its negation as
`profile.id is empty`. -/
def hasProfile (a : MinecraftAccount) : Bool := !(a.data.profileId == "")

/-- The observer `MinecraftAccount::currentTask`. -/
def currentTask (a : MinecraftAccount) : Option AccountTask := a.m_currentTask

/-- The observer `MinecraftAccount::isActive`. -/
def isActive (a : MinecraftAccount) : Bool := a.m_currentTask.isSome

/-- The slot `MinecraftAccount::authSucceeded`. -/
def authSucceeded (a : MinecraftAccount) : MinecraftAccount :=
  let a1 := { a with m_currentTask := none }
  let a2 := a1.emit Signal.changed
  a2.emit (Signal.activityChanged false)

/-- The body of the `STATE_FAILED_HARD` case of `authFailed`, before its `emit`. -/
def invalidateHard (a : MinecraftAccount) : MinecraftAccount :=
  if a.isMSA then
    { a with data :=
        { a.data with
          msaToken :=
            { a.data.msaToken with
              token := ""
              refresh_token := ""
              validity := Katabasis.Validity.None }
          validity_ := Katabasis.Validity.None } }
  else
    { a with data :=
        { a.data with
          yggdrasilToken :=
            { a.data.yggdrasilToken with
              token := ""
              validity := Katabasis.Validity.None }
          validity_ := Katabasis.Validity.None } }

/-- The `switch` of `authFailed` on the state of the current task. -/
def applyFailure (a : MinecraftAccount) (s : AccountTaskState) : MinecraftAccount :=
  match s with
  | AccountTaskState.STATE_OFFLINE => a
  | AccountTaskState.STATE_FAILED_MUST_MIGRATE => a
  | AccountTaskState.STATE_FAILED_SOFT => a
  | AccountTaskState.STATE_FAILED_HARD => (invalidateHard a).emit Signal.changed
  | AccountTaskState.STATE_FAILED_GONE =>
      ({ a with data := { a.data with validity_ := Katabasis.Validity.None } } :
        MinecraftAccount).emit Signal.changed
  | AccountTaskState.STATE_CREATED => a
  | AccountTaskState.STATE_WORKING => a
  | AccountTaskState.STATE_SUCCEEDED => a

/-- The slot `MinecraftAccount::authFailed`. It dereferences `m_currentTask`, so
it has no result (`none`) when the slot is the null pointer. The `reason` is not
used by the body. -/
def authFailed (a : MinecraftAccount) (_reason : String) : Option MinecraftAccount :=
  match a.m_currentTask with
  | none => none
  | some t =>
    let a1 := applyFailure a t.taskState
    let a2 := { a1 with m_currentTask := none }
    some (a2.emit (Signal.activityChanged false))

/-- The method `MinecraftAccount::shouldRefresh`; `now` is the value of
`QDateTime::currentDateTimeUtc()` at the call. -/
def shouldRefresh (a : MinecraftAccount) (now : Int) : Bool :=
  if a.isInUse then false
  else
    match a.data.validity_ with
    | Katabasis.Validity.None => false
    | Katabasis.Validity.Assumed => true
    | Katabasis.Validity.Certain =>
      let issuedTimestamp := a.data.yggdrasilToken.issueInstant
      let expiresTimestamp := a.data.yggdrasilToken.notAfter
      let expiresTimestamp :=
        if !expiresTimestamp.isValid then issuedTimestamp.addSecs (24 * 3600)
        else expiresTimestamp
      if QDateTime.secsTo (some now) expiresTimestamp < 12 * 3600 then true else false

end MinecraftAccount

/-! ## Sessions -/

/-- The status values `fillSession` assigns to `AuthSession::status`. -/
inductive AuthSession.Status where
  | RequiresProfileSetup
  | PlayableOffline
  | PlayableOnline
  deriving DecidableEq, Repr

/-- Modelled from the spec: the struct `AuthSession` (AuthSession.h is not among
the sources); the spec's Session Descriptor fields together with the request
flag `wants_online`, under the names the source uses. -/
structure AuthSession where
  status : AuthSession.Status
  username : String
  access_token : String
  client_token : String
  player_name : String
  uuid : String
  user_type : String
  session : String
  wants_online : Bool
  deriving DecidableEq, Repr

/-- The accessors `fillSession` calls whose bodies are outside the sources and
which the spec does not define (`AccountData::userName`, `accessToken`,
`clientToken`, `profileName` and `MinecraftAccount::typeString`): each is a
function of the account record, taken as a parameter. -/
structure Accessors where
  userName : AccountData → String
  accessToken : AccountData → String
  clientToken : AccountData → String
  profileName : AccountData → String
  typeString : AccountData → String

namespace MinecraftAccount

/-- The method `MinecraftAccount::fillSession`. It is not `const`, so the result
carries the account object after the call next to the filled session. -/
def fillSession (acc : Accessors) (a : MinecraftAccount) (session : AuthSession) :
    MinecraftAccount × AuthSession :=
  let session :=
    if a.ownsMinecraft && !a.hasProfile then
      { session with status := AuthSession.Status.RequiresProfileSetup }
    else if session.wants_online then
      { session with status := AuthSession.Status.PlayableOnline }
    else
      { session with status := AuthSession.Status.PlayableOffline }
  let session := { session with username := acc.userName a.data }
  let session := { session with access_token := acc.accessToken a.data }
  let session := { session with client_token := acc.clientToken a.data }
  let session := { session with player_name := acc.profileName a.data }
  let session := { session with uuid := a.data.profileId }
  let session := { session with user_type := acc.typeString a.data }
  let session :=
    if !(session.access_token == "") then
      { session with session := "token:" ++ acc.accessToken a.data ++ ":" ++ a.data.profileId }
    else
      { session with session := "-" }
  (a, session)

end MinecraftAccount

/-! ## Starting tasks -/

/-- Modelled from the spec: the constructors of the task classes are in `flows/*.h` and
`AccountTask.h`, which are not among the sources; by the spec a task starts in the state
`Created`. -/
def AccountTask.create (k : TaskKind) : AccountTask :=
  { kind := k, m_taskState := AccountTaskState.STATE_CREATED }

namespace MinecraftAccount

/-- The macro `Q_ASSERT(cond)`. In a build with assertions compiled in (`asserts = true`)
a false condition aborts the call, which then has no result (`none`); in a build with
`QT_NO_DEBUG` (`asserts = false`) the macro expands to nothing and the call goes on. -/
def Q_ASSERT (asserts cond : Bool) : Option Unit :=
  if asserts && !cond then none else some ()

/-- The method `MinecraftAccount::login`, in a build with assertions (`asserts = true`) or
without them (`asserts = false`). The result is the account after the call and the
returned handle. `m_currentTask.reset(new ...)` stores the new task whatever the slot held.
The two `connect` calls wire the signals of the task to `authSucceeded` and `authFailed`
and change no field. -/
def login (asserts : Bool) (a : MinecraftAccount) (password : String) :
    Option (MinecraftAccount × AccountTask) :=
  match Q_ASSERT asserts a.m_currentTask.isNone with
  | none => none
  | some _ =>
    let t := AccountTask.create (TaskKind.MojangLogin password)
    let a1 := { a with m_currentTask := some t }
    let a2 := a1.emit (Signal.activityChanged true)
    some (a2, t)

/-- The method `MinecraftAccount::loginMSA`. -/
def loginMSA (asserts : Bool) (a : MinecraftAccount) : Option (MinecraftAccount × AccountTask) :=
  match Q_ASSERT asserts a.m_currentTask.isNone with
  | none => none
  | some _ =>
    let t := AccountTask.create TaskKind.MSAInteractive
    let a1 := { a with m_currentTask := some t }
    let a2 := a1.emit (Signal.activityChanged true)
    some (a2, t)

/-- The method `MinecraftAccount::loginLocal`. -/
def loginLocal (asserts : Bool) (a : MinecraftAccount) :
    Option (MinecraftAccount × AccountTask) :=
  match Q_ASSERT asserts a.m_currentTask.isNone with
  | none => none
  | some _ =>
    let t := AccountTask.create TaskKind.LocalLogin
    let a1 := { a with m_currentTask := some t }
    let a2 := a1.emit (Signal.activityChanged true)
    some (a2, t)

/-- The method `MinecraftAccount::loginElyby`. -/
def loginElyby (asserts : Bool) (a : MinecraftAccount) (password : String) :
    Option (MinecraftAccount × AccountTask) :=
  match Q_ASSERT asserts a.m_currentTask.isNone with
  | none => none
  | some _ =>
    let t := AccountTask.create (TaskKind.ElybyLogin password)
    let a1 := { a with m_currentTask := some t }
    let a2 := a1.emit (Signal.activityChanged true)
    some (a2, t)

/-- The method `MinecraftAccount::refresh`: the account after the call and the returned
handle, which is the content of the task slot. -/
def refresh (a : MinecraftAccount) : MinecraftAccount × Option AccountTask :=
  match a.m_currentTask with
  | some t => (a, some t)
  | none =>
    let a1 : MinecraftAccount :=
      match a.data.type with
      | AccountType.MSA =>
          { a with m_currentTask := some (AccountTask.create TaskKind.MSASilent) }
      | AccountType.Mojang =>
          { a with m_currentTask := some (AccountTask.create TaskKind.MojangRefresh) }
      | AccountType.Local =>
          { a with m_currentTask := some (AccountTask.create TaskKind.LocalRefresh) }
      | AccountType.Elyby =>
          { a with m_currentTask := some (AccountTask.create TaskKind.ElybyRefresh) }
    let a2 := a1.emit (Signal.activityChanged true)
    (a2, a2.m_currentTask)

end MinecraftAccount

/-! ## Sequences of controller operations -/

/-- One operation on the controller. A completion carries what the task did before it
reported: `authSucceeded d` is a success report of a task that has written the record `d`,
`authFailed s reason` a failure report of a task that has reached the state `s`. -/
inductive Step where
  | login (password : String)
  | loginMSA
  | loginLocal
  | loginElyby (password : String)
  | refresh
  | authSucceeded (d : AccountData)
  | authFailed (s : AccountTaskState) (reason : String)
  deriving DecidableEq, Repr

/-- The account after one operation, in a build with or without assertions. A `login*`
step is guarded by its precondition: it is taken on an empty task slot only, and there is
no result (`none`) on an occupied one. There is no result either when `authFailed` finds
the task slot null. -/
def Step.apply (asserts : Bool) (st : Step) (a : MinecraftAccount) : Option MinecraftAccount :=
  match st with
  | Step.login password =>
      if a.m_currentTask.isSome then none else (a.login asserts password).map Prod.fst
  | Step.loginMSA =>
      if a.m_currentTask.isSome then none else (a.loginMSA asserts).map Prod.fst
  | Step.loginLocal =>
      if a.m_currentTask.isSome then none else (a.loginLocal asserts).map Prod.fst
  | Step.loginElyby password =>
      if a.m_currentTask.isSome then none else (a.loginElyby asserts password).map Prod.fst
  | Step.refresh => some a.refresh.1
  | Step.authSucceeded d => some ({ a with data := d } : MinecraftAccount).authSucceeded
  | Step.authFailed s reason =>
      ({ a with
         m_currentTask := a.m_currentTask.map fun t => { t with m_taskState := s } } :
        MinecraftAccount).authFailed reason

/-- The account after a sequence of operations, oldest first. -/
def runSteps (asserts : Bool) (steps : List Step) (a : MinecraftAccount) :
    Option MinecraftAccount :=
  match steps with
  | [] => some a
  | st :: rest =>
    match st.apply asserts a with
    | none => none
    | some a1 => runSteps asserts rest a1

/-! ## Bytes, MD5 and UUIDs

The Qt classes `QByteArray`, `QCryptographicHash` and `QUuid` as far as
`uuidFromUsername` uses them. A byte array is the list of its bytes, each a number
below 256. -/

/-- The UTF-8 encoding of one code point. -/
def utf8EncodeChar (c : Nat) : List Nat :=
  if c < 128 then [c]
  else if c < 2048 then [192 + c / 64, 128 + c % 64]
  else if c < 65536 then [224 + c / 4096, 128 + c / 64 % 64, 128 + c % 64]
  else [240 + c / 262144, 128 + c / 4096 % 64, 128 + c / 64 % 64, 128 + c % 64]

/-- The Qt function `QString::toUtf8`. -/
def toUtf8 (s : String) : List Nat := (s.data.map fun c => utf8EncodeChar c.toNat).flatten

namespace Md5

/-- The per-round shift amounts of MD5 (RFC 1321). -/
def sTable : List Nat :=
  [
    7, 12, 17, 22, 7, 12, 17, 22,
    7, 12, 17, 22, 7, 12, 17, 22,
    5, 9, 14, 20, 5, 9, 14, 20,
    5, 9, 14, 20, 5, 9, 14, 20,
    4, 11, 16, 23, 4, 11, 16, 23,
    4, 11, 16, 23, 4, 11, 16, 23,
    6, 10, 15, 21, 6, 10, 15, 21,
    6, 10, 15, 21, 6, 10, 15, 21]

/-- The per-round additive constants of MD5 (RFC 1321). -/
def kTable : List Nat :=
  [
    0xd76aa478, 0xe8c7b756, 0x242070db, 0xc1bdceee, 0xf57c0faf, 0x4787c62a, 0xa8304613, 0xfd469501,
    0x698098d8, 0x8b44f7af, 0xffff5bb1, 0x895cd7be, 0x6b901122, 0xfd987193, 0xa679438e, 0x49b40821,
    0xf61e2562, 0xc040b340, 0x265e5a51, 0xe9b6c7aa, 0xd62f105d, 0x02441453, 0xd8a1e681, 0xe7d3fbc8,
    0x21e1cde6, 0xc33707d6, 0xf4d50d87, 0x455a14ed, 0xa9e3e905, 0xfcefa3f8, 0x676f02d9, 0x8d2a4c8a,
    0xfffa3942, 0x8771f681, 0x6d9d6122, 0xfde5380c, 0xa4beea44, 0x4bdecfa9, 0xf6bb4b60, 0xbebfbc70,
    0x289b7ec6, 0xeaa127fa, 0xd4ef3085, 0x04881d05, 0xd9d4d039, 0xe6db99e5, 0x1fa27cf8, 0xc4ac5665,
    0xf4292244, 0x432aff97, 0xab9423a7, 0xfc93a039, 0x655b59c3, 0x8f0ccc92, 0xffeff47d, 0x85845dd1,
    0x6fa87e4f, 0xfe2ce6e0, 0xa3014314, 0x4e0811a1, 0xf7537e82, 0xbd3af235, 0x2ad7d2bb, 0xeb86d391]

/-- The rotation of a 32-bit word to the left by `c` bits. -/
def rotl (x c : Nat) : Nat := ((x <<< c) ||| (x >>> (32 - c))) % 4294967296

/-- The 32-bit word with the given little-endian bytes. -/
def wordLE (bs : List Nat) : Nat :=
  bs.getD 0 0 + 256 * bs.getD 1 0 + 65536 * bs.getD 2 0 + 16777216 * bs.getD 3 0

/-- The four little-endian bytes of a 32-bit word. -/
def bytesLE (x : Nat) : List Nat :=
  [x % 256, x / 256 % 256, x / 65536 % 256, x / 16777216 % 256]

/-- The first `n` little-endian words of a block. -/
def words (n : Nat) (block : List Nat) : List Nat :=
  match n with
  | 0 => []
  | n + 1 => wordLE (block.take 4) :: words n (block.drop 4)

/-- The padded message: a `1` bit, zeros up to 56 modulo 64 bytes, then the length of the
message in bits as a 64-bit little-endian number. -/
def pad (msg : List Nat) : List Nat :=
  msg ++ [128] ++ List.replicate ((119 - msg.length % 64) % 64) 0 ++
    bytesLE (8 * msg.length % 4294967296) ++
    bytesLE (8 * msg.length / 4294967296 % 4294967296)

/-- The first `n` blocks of 64 bytes. -/
def chunks (n : Nat) (bs : List Nat) : List (List Nat) :=
  match n with
  | 0 => []
  | n + 1 => bs.take 64 :: chunks n (bs.drop 64)

/-- The four 32-bit words of the MD5 state. -/
structure State where
  a : Nat
  b : Nat
  c : Nat
  d : Nat
  deriving DecidableEq, Repr

/-- The initial MD5 state. -/
def init : State := { a := 0x67452301, b := 0xefcdab89, c := 0x98badcfe, d := 0x10325476 }

/-- Operation `i` of the 64 operations on a block with words `m`. -/
def step (m : List Nat) (st : State) (i : Nat) : State :=
  let f :=
    if i < 16 then (st.b &&& st.c) ||| ((st.b ^^^ 4294967295) &&& st.d)
    else if i < 32 then (st.d &&& st.b) ||| ((st.d ^^^ 4294967295) &&& st.c)
    else if i < 48 then st.b ^^^ st.c ^^^ st.d
    else st.c ^^^ (st.b ||| (st.d ^^^ 4294967295))
  let g :=
    if i < 16 then i
    else if i < 32 then (5 * i + 1) % 16
    else if i < 48 then (3 * i + 5) % 16
    else (7 * i) % 16
  let f := (f + st.a + kTable.getD i 0 + m.getD g 0) % 4294967296
  { a := st.d, b := (st.b + rotl f (sTable.getD i 0)) % 4294967296, c := st.b, d := st.c }

/-- The MD5 state after one more block. -/
def processBlock (st : State) (block : List Nat) : State :=
  let r := (List.range 64).foldl (step (words 16 block)) st
  { a := (st.a + r.a) % 4294967296, b := (st.b + r.b) % 4294967296,
    c := (st.c + r.c) % 4294967296, d := (st.d + r.d) % 4294967296 }

/-- The Qt call `QCryptographicHash::hash(msg, QCryptographicHash::Md5)`: the MD5 digest
of RFC 1321, 16 bytes. -/
def hash (msg : List Nat) : List Nat :=
  let p := pad msg
  let r := (chunks (p.length / 64) p).foldl processBlock init
  bytesLE r.a ++ bytesLE r.b ++ bytesLE r.c ++ bytesLE r.d

end Md5

/-- The lower-case hexadecimal digit of a number below 16. -/
def hexDigit (n : Nat) : Char := if n < 10 then Char.ofNat (48 + n) else Char.ofNat (87 + n)

/-- The two hexadecimal digits of each byte, in order. -/
def hexChars (bs : List Nat) : List Char :=
  (bs.map fun b => [hexDigit (b / 16), hexDigit (b % 16)]).flatten

/-- A `QUuid`: its 16 bytes in the order of RFC 4122. -/
structure QUuid where
  bytes : List Nat
  deriving DecidableEq, Repr

namespace QUuid

/-- The Qt function `QUuid::fromRfc4122`: the null UUID unless 16 bytes are given. -/
def fromRfc4122 (bytes : List Nat) : QUuid :=
  if bytes.length = 16 then { bytes := bytes } else { bytes := List.replicate 16 0 }

/-- The Qt function `QUuid::toString`: five groups of hexadecimal digits, of 4, 2, 2, 2 and
6 bytes, joined by dashes, within braces. -/
def toString (u : QUuid) : String :=
  String.mk
    ([Char.ofNat 123] ++ hexChars (u.bytes.take 4) ++
      [Char.ofNat 45] ++ hexChars ((u.bytes.drop 4).take 2) ++
      [Char.ofNat 45] ++ hexChars ((u.bytes.drop 6).take 2) ++
      [Char.ofNat 45] ++ hexChars ((u.bytes.drop 8).take 2) ++
      [Char.ofNat 45] ++ hexChars ((u.bytes.drop 10).take 6) ++ [Char.ofNat 125])

end QUuid

/-- The call `.remove(QRegExp("[{}-]"))` on a string: every opening brace, closing brace
and dash is dropped. -/
def removeBracesAndDashes (s : String) : String :=
  String.mk
    (s.data.filter fun c =>
      !(c == Char.ofNat 123 || c == Char.ofNat 125 || c == Char.ofNat 45))

/-- The lambda `bOr` of `uuidFromUsername`: byte `index` becomes its bitwise or with
`value`. -/
def bOr (array : List Nat) (index value : Nat) : List Nat :=
  array.set index (array.getD index 0 ||| value)

/-- The lambda `bAnd` of `uuidFromUsername`: byte `index` becomes its bitwise and with
`value`. -/
def bAnd (array : List Nat) (index value : Nat) : List Nat :=
  array.set index (array.getD index 0 &&& value)

/-- The function `uuidFromUsername`. -/
def uuidFromUsername (username : String) : QUuid :=
  let input := toUtf8 ("OfflinePlayer:" ++ username)
  let digest := Md5.hash input
  let digest := bAnd digest 6 0x0f
  let digest := bOr digest 6 0x30
  let digest := bAnd digest 8 0x3f
  let digest := bOr digest 8 0x80
  QUuid.fromRfc4122 digest

/-! ## Creating accounts -/

/-- The assignment `extra[key] = value` on a `QVariantMap`. -/
def setExtra (extra : List (String × String)) (key value : String) : List (String × String) :=
  (extra.filter fun e => !(e.1 == key)) ++ [(key, value)]

namespace MinecraftAccount

/-- The constructor `MinecraftAccount::MinecraftAccount`. The member initialisers of
`AccountData` are in AccountData.h, which is not among the sources, so the default
constructed record is the parameter `dflt`; `uuid` is the result of
`QUuid::createUuid()`. A new account has a null task slot and use counter zero. -/
def init (dflt : AccountData) (uuid : QUuid) : MinecraftAccount :=
  { data := { dflt with internalId := removeBracesAndDashes uuid.toString }
    m_currentTask := none
    m_useCounter := 0
    signals := [] }

/-- The factory `MinecraftAccount::createLocal`; `uuid` and `clientUuid` are the results of
the two calls of `QUuid::createUuid()`, `now` that of `QDateTime::currentDateTimeUtc()`. -/
def createLocal (dflt : AccountData) (uuid clientUuid : QUuid) (now : Int)
    (username : String) : MinecraftAccount :=
  let account := init dflt uuid
  let account := { account with data := { account.data with type := AccountType.Local } }
  let account := { account with data := { account.data with
    yggdrasilToken := { account.data.yggdrasilToken with
      validity := Katabasis.Validity.Certain } } }
  let account := { account with data := { account.data with
    yggdrasilToken := { account.data.yggdrasilToken with issueInstant := some now } } }
  let account := { account with data := { account.data with
    yggdrasilToken := { account.data.yggdrasilToken with
      extra := setExtra account.data.yggdrasilToken.extra "userName" username } } }
  let account := { account with data := { account.data with
    yggdrasilToken := { account.data.yggdrasilToken with
      extra := setExtra account.data.yggdrasilToken.extra "clientToken"
        (removeBracesAndDashes clientUuid.toString) } } }
  let account := { account with data := { account.data with
    minecraftProfile := { account.data.minecraftProfile with
      id := removeBracesAndDashes (uuidFromUsername username).toString } } }
  let account := { account with data := { account.data with
    minecraftProfile := { account.data.minecraftProfile with name := username } } }
  let account := { account with data := { account.data with
    minecraftProfile := { account.data.minecraftProfile with
      validity := Katabasis.Validity.Certain } } }
  let account := { account with data := { account.data with
    minecraftEntitlement := { account.data.minecraftEntitlement with
      ownsMinecraft := true } } }
  let account := { account with data := { account.data with
    minecraftEntitlement := { account.data.minecraftEntitlement with
      canPlayMinecraft := true } } }
  account

/-- The factory `MinecraftAccount::createElyby`; `uuid` and `clientUuid` are the results of
the two calls of `QUuid::createUuid()`. -/
def createElyby (dflt : AccountData) (uuid clientUuid : QUuid) (username : String) :
    MinecraftAccount :=
  let account := init dflt uuid
  let account := { account with data := { account.data with type := AccountType.Elyby } }
  let account := { account with data := { account.data with
    yggdrasilToken := { account.data.yggdrasilToken with
      extra := setExtra account.data.yggdrasilToken.extra "userName" username } } }
  let account := { account with data := { account.data with
    yggdrasilToken := { account.data.yggdrasilToken with
      extra := setExtra account.data.yggdrasilToken.extra "clientToken"
        (removeBracesAndDashes clientUuid.toString) } } }
  let account := { account with data := { account.data with
    minecraftProfile := { account.data.minecraftProfile with
      id := removeBracesAndDashes (uuidFromUsername username).toString } } }
  let account := { account with data := { account.data with
    minecraftProfile := { account.data.minecraftProfile with name := username } } }
  let account := { account with data := { account.data with
    minecraftProfile := { account.data.minecraftProfile with
      validity := Katabasis.Validity.Certain } } }
  let account := { account with data := { account.data with
    minecraftEntitlement := { account.data.minecraftEntitlement with
      ownsMinecraft := true } } }
  let account := { account with data := { account.data with
    minecraftEntitlement := { account.data.minecraftEntitlement with
      canPlayMinecraft := true } } }
  account

end MinecraftAccount

/-! ## Concrete objects -/

/-- A token restored in full: value, refresh value, both time bounds, one extra entry. -/
def storedToken (value refresh : String) : Katabasis.Token :=
  { issueInstant := some 1000, notAfter := some 90000, token := value, refresh_token := refresh,
    extra := [("userName", "steve")], validity := Katabasis.Validity.Certain }

/-- An account record of the given provider type whose two token slots are both
populated, with a profile and an entitlement. -/
def sampleData (ty : AccountType) : AccountData :=
  { internalId := "0f0e0d0c"
    type := ty
    msaToken := storedToken "msa-access" "msa-refresh"
    yggdrasilToken := storedToken "ygg-access" "ygg-refresh"
    minecraftProfile :=
      { id := "5627dd98e6be3c21b8a8e92344183641", name := "Steve", skin := [],
        validity := Katabasis.Validity.Certain }
    minecraftEntitlement := { ownsMinecraft := true, canPlayMinecraft := true }
    validity_ := Katabasis.Validity.Certain }

/-- A refresh task of the class matching the provider type, in state `s`. -/
def sampleTask (ty : AccountType) (s : AccountTaskState) : AccountTask :=
  { kind :=
      match ty with
      | AccountType.MSA => TaskKind.MSASilent
      | AccountType.Mojang => TaskKind.MojangRefresh
      | AccountType.Local => TaskKind.LocalRefresh
      | AccountType.Elyby => TaskKind.ElybyRefresh
    m_taskState := s }

/-- An account object over `sampleData ty` whose in-flight task is `sampleTask ty s`. -/
def sampleAccount (ty : AccountType) (s : AccountTaskState) : MinecraftAccount :=
  { data := sampleData ty
    m_currentTask := some (sampleTask ty s)
    m_useCounter := 0
    signals := [] }

/-- One instance of the accessors, for concrete evaluation: the user name and the client
token are entries of the Yggdrasil token's `extra`, the access token is the value of the
Yggdrasil token, the profile name is the name of the profile. -/
def sampleAccessors : Accessors :=
  { userName := fun d => (d.yggdrasilToken.extra.lookup "userName").getD ""
    accessToken := fun d => d.yggdrasilToken.token
    clientToken := fun d => (d.yggdrasilToken.extra.lookup "clientToken").getD ""
    profileName := fun d => d.minecraftProfile.name
    typeString := fun d => if d.type = AccountType.MSA then "msa" else "mojang" }

/-- A session request as the launch code hands it to `fillSession`: nothing filled yet. -/
def blankSession (online : Bool) : AuthSession :=
  { status := AuthSession.Status.PlayableOffline, username := "", access_token := "",
    client_token := "", player_name := "", uuid := "", user_type := "", session := "",
    wants_online := online }

/-- An idle Mojang account with the given overall validity and use counter whose
Yggdrasil token has the given time bounds. -/
def refreshSample (v : Katabasis.Validity) (uses : Nat) (issued expires : QDateTime) :
    MinecraftAccount :=
  { data :=
      { sampleData AccountType.Mojang with
        validity_ := v
        yggdrasilToken :=
          { storedToken "ygg-access" "" with issueInstant := issued, notAfter := expires } }
    m_currentTask := none
    m_useCounter := uses
    signals := [] }

/-- An account object over `sampleData ty` with an empty task slot, in use `uses` times. -/
def idleAccount (ty : AccountType) (uses : Nat) : MinecraftAccount :=
  { data := sampleData ty
    m_currentTask := none
    m_useCounter := uses
    signals := [] }

/-- A default constructed account record: nothing stored, every validity `None`. -/
def blankData : AccountData :=
  { internalId := ""
    type := AccountType.MSA
    msaToken :=
      { issueInstant := none, notAfter := none, token := "", refresh_token := "", extra := [],
        validity := Katabasis.Validity.None }
    yggdrasilToken :=
      { issueInstant := none, notAfter := none, token := "", refresh_token := "", extra := [],
        validity := Katabasis.Validity.None }
    minecraftProfile := { id := "", name := "", skin := [], validity := Katabasis.Validity.None }
    minecraftEntitlement := { ownsMinecraft := false, canPlayMinecraft := false }
    validity_ := Katabasis.Validity.None }

/-- A value `QUuid::createUuid()` can return: a version 4 UUID. -/
def randomUuid : QUuid :=
  { bytes := [0x3b, 0x24, 0x1a, 0x01, 0x7c, 0x5e, 0x4f, 0x12, 0x9a, 0x6d, 0x0e, 0x11, 0x22,
      0x33, 0x44, 0x55] }

/-! ## Shape of the result of `authFailed` -/

/-- With a task in the slot, `authFailed` returns: the result is the object after the
`switch`, with the slot cleared and `activityChanged(false)` emitted last. -/
theorem authFailed_eq_of_task (a : MinecraftAccount) (t : AccountTask) (reason : String)
    (hT : a.m_currentTask = some t) :
    a.authFailed reason =
      some (({ a.applyFailure t.taskState with m_currentTask := none } :
        MinecraftAccount).emit (Signal.activityChanged false)) := by
  unfold MinecraftAccount.authFailed
  rw [hT]

/-- The statement `emit` leaves the account record alone. -/
theorem emit_data (a : MinecraftAccount) (s : Signal) : (a.emit s).data = a.data := rfl

/-- The account record and the use counter after `authFailed` are those after its `switch`. -/
theorem authFailed_data (a : MinecraftAccount) (t : AccountTask) (reason : String)
    (hT : a.m_currentTask = some t) :
    ∃ r, a.authFailed reason = some r ∧ r.data = (a.applyFailure t.taskState).data ∧
      r.m_useCounter = (a.applyFailure t.taskState).m_useCounter :=
  ⟨_, authFailed_eq_of_task a t reason hT, rfl, rfl⟩

/-- The account record after the `STATE_FAILED_HARD` case on an MSA account. -/
theorem invalidateHard_data_msa (a : MinecraftAccount) (h : a.data.type = AccountType.MSA) :
    (a.invalidateHard).data =
      { a.data with
        msaToken :=
          { a.data.msaToken with
            token := ""
            refresh_token := ""
            validity := Katabasis.Validity.None }
        validity_ := Katabasis.Validity.None } := by
  simp [MinecraftAccount.invalidateHard, MinecraftAccount.isMSA, h]

/-- The account record after the `STATE_FAILED_HARD` case on an account that is not MSA. -/
theorem invalidateHard_data_other (a : MinecraftAccount) (h : a.data.type ≠ AccountType.MSA) :
    (a.invalidateHard).data =
      { a.data with
        yggdrasilToken :=
          { a.data.yggdrasilToken with
            token := ""
            validity := Katabasis.Validity.None }
        validity_ := Katabasis.Validity.None } := by
  simp [MinecraftAccount.invalidateHard, MinecraftAccount.isMSA, h]

/-! ## Failure policy of `authFailed` -/

/-- C1, as the claim states it, fails on a Mojang account whose Yggdrasil token carries a
refresh value: the task is in `STATE_FAILED_HARD`, the account is not MSA, and after
`authFailed` the Yggdrasil token has an empty value and validity `None`, the overall
validity is `None`, but the refresh value of that token is still `"ygg-refresh"`, which
is not empty. -/
theorem authFailed_hard_legacy_refresh_value_kept :
    (sampleAccount AccountType.Mojang AccountTaskState.STATE_FAILED_HARD).m_currentTask.map
        AccountTask.taskState = some AccountTaskState.STATE_FAILED_HARD ∧
    (sampleAccount AccountType.Mojang AccountTaskState.STATE_FAILED_HARD).data.type
        ≠ AccountType.MSA ∧
    ∃ r, (sampleAccount AccountType.Mojang AccountTaskState.STATE_FAILED_HARD).authFailed
          "Invalid credentials." = some r ∧
      r.data.yggdrasilToken.token = "" ∧
      r.data.yggdrasilToken.validity = Katabasis.Validity.None ∧
      r.data.validity_ = Katabasis.Validity.None ∧
      r.data.yggdrasilToken.refresh_token = "ygg-refresh" ∧
      r.data.yggdrasilToken.refresh_token ≠ "" :=
  ⟨rfl, by decide, _, rfl, rfl, rfl, rfl, rfl, by decide⟩

/-- C1 (amended): when the task in the slot is in `STATE_FAILED_HARD`, `authFailed`
returns, the provider type is unchanged and the overall validity is `None`; on an MSA
account the MSA token has an empty value, an empty refresh value and validity `None`; on
every other account the Yggdrasil token has an empty value and validity `None`, and its
refresh value is the one it had before the call. -/
theorem authFailed_hard_invalidates (a : MinecraftAccount) (t : AccountTask) (reason : String)
    (hT : a.m_currentTask = some t)
    (hS : t.taskState = AccountTaskState.STATE_FAILED_HARD) :
    ∃ r, a.authFailed reason = some r ∧
      r.data.type = a.data.type ∧
      r.data.validity_ = Katabasis.Validity.None ∧
      (a.data.type = AccountType.MSA →
        r.data.msaToken.token = "" ∧
        r.data.msaToken.refresh_token = "" ∧
        r.data.msaToken.validity = Katabasis.Validity.None) ∧
      (a.data.type ≠ AccountType.MSA →
        r.data.yggdrasilToken.token = "" ∧
        r.data.yggdrasilToken.validity = Katabasis.Validity.None ∧
        r.data.yggdrasilToken.refresh_token = a.data.yggdrasilToken.refresh_token) := by
  obtain ⟨r, hr, hd, hu⟩ := authFailed_data a t reason hT
  refine ⟨r, hr, ?_⟩
  rw [hd, hS]
  simp only [MinecraftAccount.applyFailure, emit_data]
  by_cases h : a.data.type = AccountType.MSA
  · rw [invalidateHard_data_msa a h]
    exact ⟨rfl, rfl, fun _ => ⟨rfl, rfl, rfl⟩, fun hn => absurd h hn⟩
  · rw [invalidateHard_data_other a h]
    exact ⟨rfl, rfl, fun hm => absurd hm h, fun _ => ⟨rfl, rfl, rfl⟩⟩

/-- C1 (amended) at an MSA account with both slots populated and a task in
`STATE_FAILED_HARD`. -/
theorem authFailed_hard_invalidates_witness :
    (sampleAccount AccountType.MSA AccountTaskState.STATE_FAILED_HARD).m_currentTask =
      some (sampleTask AccountType.MSA AccountTaskState.STATE_FAILED_HARD) ∧
    (sampleTask AccountType.MSA AccountTaskState.STATE_FAILED_HARD).taskState =
        AccountTaskState.STATE_FAILED_HARD ∧
    ∃ r, (sampleAccount AccountType.MSA AccountTaskState.STATE_FAILED_HARD).authFailed
          "Refresh token rejected." = some r ∧
      r.data.type = (sampleAccount AccountType.MSA AccountTaskState.STATE_FAILED_HARD).data.type ∧
      r.data.validity_ = Katabasis.Validity.None ∧
      ((sampleAccount AccountType.MSA AccountTaskState.STATE_FAILED_HARD).data.type
          = AccountType.MSA →
        r.data.msaToken.token = "" ∧
        r.data.msaToken.refresh_token = "" ∧
        r.data.msaToken.validity = Katabasis.Validity.None) ∧
      ((sampleAccount AccountType.MSA AccountTaskState.STATE_FAILED_HARD).data.type
          ≠ AccountType.MSA →
        r.data.yggdrasilToken.token = "" ∧
        r.data.yggdrasilToken.validity = Katabasis.Validity.None ∧
        r.data.yggdrasilToken.refresh_token =
          (sampleAccount AccountType.MSA
            AccountTaskState.STATE_FAILED_HARD).data.yggdrasilToken.refresh_token) :=
  ⟨rfl, rfl,
    authFailed_hard_invalidates
      (sampleAccount AccountType.MSA AccountTaskState.STATE_FAILED_HARD)
      (sampleTask AccountType.MSA AccountTaskState.STATE_FAILED_HARD)
      "Refresh token rejected." rfl rfl⟩

/-- C2: when the task in the slot is in `STATE_FAILED_HARD`, `authFailed` returns and
leaves the other token slot as it was, in every field: the Yggdrasil token on an MSA
account, the MSA token on a Mojang, Local or Elyby account; the profile and the
entitlement are unchanged on every account. -/
theorem authFailed_hard_frame (a : MinecraftAccount) (t : AccountTask) (reason : String)
    (hT : a.m_currentTask = some t)
    (hS : t.taskState = AccountTaskState.STATE_FAILED_HARD) :
    ∃ r, a.authFailed reason = some r ∧
      (a.data.type = AccountType.MSA → r.data.yggdrasilToken = a.data.yggdrasilToken) ∧
      (a.data.type = AccountType.Mojang ∨ a.data.type = AccountType.Local ∨
          a.data.type = AccountType.Elyby →
        r.data.msaToken = a.data.msaToken) ∧
      r.data.minecraftProfile = a.data.minecraftProfile ∧
      r.data.minecraftEntitlement = a.data.minecraftEntitlement := by
  obtain ⟨r, hr, hd, hu⟩ := authFailed_data a t reason hT
  refine ⟨r, hr, ?_⟩
  rw [hd, hS]
  simp only [MinecraftAccount.applyFailure, emit_data]
  by_cases h : a.data.type = AccountType.MSA
  · rw [invalidateHard_data_msa a h]
    refine ⟨fun _ => rfl, fun hn => ?_, rfl, rfl⟩
    rw [h] at hn
    exact absurd hn (by decide)
  · rw [invalidateHard_data_other a h]
    exact ⟨fun hm => absurd hm h, fun _ => rfl, rfl, rfl⟩

/-- C2 at a Mojang account with both slots populated and a task in `STATE_FAILED_HARD`. -/
theorem authFailed_hard_frame_witness :
    (sampleAccount AccountType.Mojang AccountTaskState.STATE_FAILED_HARD).m_currentTask =
      some (sampleTask AccountType.Mojang AccountTaskState.STATE_FAILED_HARD) ∧
    (sampleTask AccountType.Mojang AccountTaskState.STATE_FAILED_HARD).taskState =
        AccountTaskState.STATE_FAILED_HARD ∧
    ∃ r, (sampleAccount AccountType.Mojang AccountTaskState.STATE_FAILED_HARD).authFailed
          "Invalid token." = some r ∧
      ((sampleAccount AccountType.Mojang AccountTaskState.STATE_FAILED_HARD).data.type
          = AccountType.MSA →
        r.data.yggdrasilToken =
          (sampleAccount AccountType.Mojang
            AccountTaskState.STATE_FAILED_HARD).data.yggdrasilToken) ∧
      ((sampleAccount AccountType.Mojang AccountTaskState.STATE_FAILED_HARD).data.type
            = AccountType.Mojang ∨
          (sampleAccount AccountType.Mojang AccountTaskState.STATE_FAILED_HARD).data.type
            = AccountType.Local ∨
          (sampleAccount AccountType.Mojang AccountTaskState.STATE_FAILED_HARD).data.type
            = AccountType.Elyby →
        r.data.msaToken =
          (sampleAccount AccountType.Mojang AccountTaskState.STATE_FAILED_HARD).data.msaToken) ∧
      r.data.minecraftProfile =
        (sampleAccount AccountType.Mojang
          AccountTaskState.STATE_FAILED_HARD).data.minecraftProfile ∧
      r.data.minecraftEntitlement =
        (sampleAccount AccountType.Mojang
          AccountTaskState.STATE_FAILED_HARD).data.minecraftEntitlement :=
  ⟨rfl, rfl,
    authFailed_hard_frame
      (sampleAccount AccountType.Mojang AccountTaskState.STATE_FAILED_HARD)
      (sampleTask AccountType.Mojang AccountTaskState.STATE_FAILED_HARD)
      "Invalid token." rfl rfl⟩

/-- C3: when the task in the slot is in `STATE_FAILED_GONE`, `authFailed` returns, the
overall validity is `None`, and the account record is the previous one with only that
field replaced: both token slots (every field of each), the profile, the entitlement,
the provider type and the internal id are as before, whatever the provider type; the
use counter is as before too. -/
theorem authFailed_gone_only_overall_validity (a : MinecraftAccount) (t : AccountTask)
    (reason : String) (hT : a.m_currentTask = some t)
    (hS : t.taskState = AccountTaskState.STATE_FAILED_GONE) :
    ∃ r, a.authFailed reason = some r ∧
      r.data.validity_ = Katabasis.Validity.None ∧
      r.data = { a.data with validity_ := Katabasis.Validity.None } ∧
      r.data.msaToken = a.data.msaToken ∧
      r.data.yggdrasilToken = a.data.yggdrasilToken ∧
      r.data.minecraftProfile = a.data.minecraftProfile ∧
      r.data.minecraftEntitlement = a.data.minecraftEntitlement ∧
      r.data.type = a.data.type ∧
      r.data.internalId = a.data.internalId ∧
      r.m_useCounter = a.m_useCounter := by
  obtain ⟨r, hr, hd, hu⟩ := authFailed_data a t reason hT
  refine ⟨r, hr, ?_⟩
  rw [hd, hu, hS]
  exact ⟨rfl, rfl, rfl, rfl, rfl, rfl, rfl, rfl, rfl⟩

/-- C3 at an Elyby account with both slots populated and a task in `STATE_FAILED_GONE`. -/
theorem authFailed_gone_only_overall_validity_witness :
    (sampleAccount AccountType.Elyby AccountTaskState.STATE_FAILED_GONE).m_currentTask =
      some (sampleTask AccountType.Elyby AccountTaskState.STATE_FAILED_GONE) ∧
    (sampleTask AccountType.Elyby AccountTaskState.STATE_FAILED_GONE).taskState =
        AccountTaskState.STATE_FAILED_GONE ∧
    ∃ r, (sampleAccount AccountType.Elyby AccountTaskState.STATE_FAILED_GONE).authFailed
          "Account is gone." = some r ∧
      r.data.validity_ = Katabasis.Validity.None ∧
      r.data = { (sampleAccount AccountType.Elyby AccountTaskState.STATE_FAILED_GONE).data with
                 validity_ := Katabasis.Validity.None } ∧
      r.data.msaToken =
        (sampleAccount AccountType.Elyby AccountTaskState.STATE_FAILED_GONE).data.msaToken ∧
      r.data.yggdrasilToken =
        (sampleAccount AccountType.Elyby AccountTaskState.STATE_FAILED_GONE).data.yggdrasilToken ∧
      r.data.minecraftProfile =
        (sampleAccount AccountType.Elyby
          AccountTaskState.STATE_FAILED_GONE).data.minecraftProfile ∧
      r.data.minecraftEntitlement =
        (sampleAccount AccountType.Elyby
          AccountTaskState.STATE_FAILED_GONE).data.minecraftEntitlement ∧
      r.data.type =
        (sampleAccount AccountType.Elyby AccountTaskState.STATE_FAILED_GONE).data.type ∧
      r.data.internalId =
        (sampleAccount AccountType.Elyby AccountTaskState.STATE_FAILED_GONE).data.internalId ∧
      r.m_useCounter =
        (sampleAccount AccountType.Elyby AccountTaskState.STATE_FAILED_GONE).m_useCounter :=
  ⟨rfl, rfl,
    authFailed_gone_only_overall_validity
      (sampleAccount AccountType.Elyby AccountTaskState.STATE_FAILED_GONE)
      (sampleTask AccountType.Elyby AccountTaskState.STATE_FAILED_GONE)
      "Account is gone." rfl rfl⟩

/-- C4: when the task in the slot is in `STATE_OFFLINE`, `STATE_FAILED_MUST_MIGRATE` or
`STATE_FAILED_SOFT`, `authFailed` returns and the whole account record after the call
equals the account record before it: overall validity, both token slots, profile and
entitlement; the use counter is unchanged as well. -/
theorem authFailed_transient_data_unchanged (a : MinecraftAccount) (t : AccountTask)
    (reason : String) (hT : a.m_currentTask = some t)
    (hS : t.taskState = AccountTaskState.STATE_OFFLINE ∨
      t.taskState = AccountTaskState.STATE_FAILED_MUST_MIGRATE ∨
      t.taskState = AccountTaskState.STATE_FAILED_SOFT) :
    ∃ r, a.authFailed reason = some r ∧
      r.data = a.data ∧
      r.data.validity_ = a.data.validity_ ∧
      r.data.msaToken = a.data.msaToken ∧
      r.data.yggdrasilToken = a.data.yggdrasilToken ∧
      r.data.minecraftProfile = a.data.minecraftProfile ∧
      r.data.minecraftEntitlement = a.data.minecraftEntitlement ∧
      r.m_useCounter = a.m_useCounter := by
  obtain ⟨r, hr, hd, hu⟩ := authFailed_data a t reason hT
  refine ⟨r, hr, ?_⟩
  rw [hd, hu]
  rcases hS with h | h | h <;> rw [h] <;> exact ⟨rfl, rfl, rfl, rfl, rfl, rfl, rfl⟩

/-- C4 at an MSA account with both slots populated and a task in `STATE_FAILED_SOFT`. -/
theorem authFailed_transient_data_unchanged_witness :
    (sampleAccount AccountType.MSA AccountTaskState.STATE_FAILED_SOFT).m_currentTask =
      some (sampleTask AccountType.MSA AccountTaskState.STATE_FAILED_SOFT) ∧
    ((sampleTask AccountType.MSA AccountTaskState.STATE_FAILED_SOFT).taskState =
        AccountTaskState.STATE_OFFLINE ∨
      (sampleTask AccountType.MSA AccountTaskState.STATE_FAILED_SOFT).taskState =
          AccountTaskState.STATE_FAILED_MUST_MIGRATE ∨
      (sampleTask AccountType.MSA AccountTaskState.STATE_FAILED_SOFT).taskState =
          AccountTaskState.STATE_FAILED_SOFT) ∧
    ∃ r, (sampleAccount AccountType.MSA AccountTaskState.STATE_FAILED_SOFT).authFailed
          "Too many requests." = some r ∧
      r.data = (sampleAccount AccountType.MSA AccountTaskState.STATE_FAILED_SOFT).data ∧
      r.data.validity_ =
        (sampleAccount AccountType.MSA AccountTaskState.STATE_FAILED_SOFT).data.validity_ ∧
      r.data.msaToken =
        (sampleAccount AccountType.MSA AccountTaskState.STATE_FAILED_SOFT).data.msaToken ∧
      r.data.yggdrasilToken =
        (sampleAccount AccountType.MSA AccountTaskState.STATE_FAILED_SOFT).data.yggdrasilToken ∧
      r.data.minecraftProfile =
        (sampleAccount AccountType.MSA AccountTaskState.STATE_FAILED_SOFT).data.minecraftProfile ∧
      r.data.minecraftEntitlement =
        (sampleAccount AccountType.MSA
          AccountTaskState.STATE_FAILED_SOFT).data.minecraftEntitlement ∧
      r.m_useCounter =
        (sampleAccount AccountType.MSA AccountTaskState.STATE_FAILED_SOFT).m_useCounter :=
  ⟨rfl, Or.inr (Or.inr rfl),
    authFailed_transient_data_unchanged
      (sampleAccount AccountType.MSA AccountTaskState.STATE_FAILED_SOFT)
      (sampleTask AccountType.MSA AccountTaskState.STATE_FAILED_SOFT)
      "Too many requests." rfl (Or.inr (Or.inr rfl))⟩

/-- The overall validity after the `switch` of `authFailed` is the previous one or `None`,
and it is `None` in the cases `STATE_FAILED_HARD` and `STATE_FAILED_GONE`. -/
theorem applyFailure_validity (a : MinecraftAccount) (s : AccountTaskState) :
    ((a.applyFailure s).data.validity_ = a.data.validity_ ∨
        (a.applyFailure s).data.validity_ = Katabasis.Validity.None) ∧
      ((a.applyFailure s).data.validity_ ≠ a.data.validity_ →
        s = AccountTaskState.STATE_FAILED_HARD ∨ s = AccountTaskState.STATE_FAILED_GONE) := by
  cases s
  case STATE_FAILED_HARD =>
    refine ⟨Or.inr ?_, fun _ => Or.inl rfl⟩
    simp only [MinecraftAccount.applyFailure, emit_data]
    by_cases h : a.data.type = AccountType.MSA
    · rw [invalidateHard_data_msa a h]
    · rw [invalidateHard_data_other a h]
  case STATE_FAILED_GONE => exact ⟨Or.inr rfl, fun _ => Or.inr rfl⟩
  all_goals exact ⟨Or.inl rfl, fun h => absurd rfl h⟩

/-- C5: for every state of the task in the slot, `authFailed` returns and the overall
validity afterwards is the previous one or `None`, and it differs from the previous one
only if the state is `STATE_FAILED_HARD` or `STATE_FAILED_GONE`; `authSucceeded` leaves
the overall validity, and the whole account record, as it was. -/
theorem completion_never_upgrades_validity (a : MinecraftAccount) (t : AccountTask)
    (reason : String) (hT : a.m_currentTask = some t) :
    (∃ r, a.authFailed reason = some r ∧
      (r.data.validity_ = a.data.validity_ ∨ r.data.validity_ = Katabasis.Validity.None) ∧
      (r.data.validity_ ≠ a.data.validity_ →
        t.taskState = AccountTaskState.STATE_FAILED_HARD ∨
        t.taskState = AccountTaskState.STATE_FAILED_GONE)) ∧
    a.authSucceeded.data.validity_ = a.data.validity_ ∧
    a.authSucceeded.data = a.data := by
  refine ⟨?_, rfl, rfl⟩
  obtain ⟨r, hr, hd, hu⟩ := authFailed_data a t reason hT
  refine ⟨r, hr, ?_⟩
  rw [hd]
  exact applyFailure_validity a t.taskState

/-- C5 at a Local account whose overall validity is `Certain` and whose task is in
`STATE_FAILED_GONE`. -/
theorem completion_never_upgrades_validity_witness :
    (sampleAccount AccountType.Local AccountTaskState.STATE_FAILED_GONE).m_currentTask =
      some (sampleTask AccountType.Local AccountTaskState.STATE_FAILED_GONE) ∧
    (∃ r, (sampleAccount AccountType.Local AccountTaskState.STATE_FAILED_GONE).authFailed
          "" = some r ∧
      (r.data.validity_ =
          (sampleAccount AccountType.Local AccountTaskState.STATE_FAILED_GONE).data.validity_ ∨
        r.data.validity_ = Katabasis.Validity.None) ∧
      (r.data.validity_ ≠
          (sampleAccount AccountType.Local AccountTaskState.STATE_FAILED_GONE).data.validity_ →
        (sampleTask AccountType.Local AccountTaskState.STATE_FAILED_GONE).taskState
          = AccountTaskState.STATE_FAILED_HARD ∨
        (sampleTask AccountType.Local AccountTaskState.STATE_FAILED_GONE).taskState
          = AccountTaskState.STATE_FAILED_GONE)) ∧
    (sampleAccount AccountType.Local
        AccountTaskState.STATE_FAILED_GONE).authSucceeded.data.validity_
      = (sampleAccount AccountType.Local AccountTaskState.STATE_FAILED_GONE).data.validity_ ∧
    (sampleAccount AccountType.Local AccountTaskState.STATE_FAILED_GONE).authSucceeded.data
      = (sampleAccount AccountType.Local AccountTaskState.STATE_FAILED_GONE).data :=
  ⟨rfl,
    completion_never_upgrades_validity
      (sampleAccount AccountType.Local AccountTaskState.STATE_FAILED_GONE)
      (sampleTask AccountType.Local AccountTaskState.STATE_FAILED_GONE)
      "" rfl⟩

/-! ## Refresh policy -/

/-- On an account that is not in use and whose overall validity is `Certain`,
`shouldRefresh` is the comparison of `secsTo` with twelve hours. -/
theorem shouldRefresh_certain_eq (a : MinecraftAccount) (now : Int)
    (hUse : a.m_useCounter = 0) (hV : a.data.validity_ = Katabasis.Validity.Certain) :
    a.shouldRefresh now =
      decide (QDateTime.secsTo (some now)
        (if !a.data.yggdrasilToken.notAfter.isValid then
          a.data.yggdrasilToken.issueInstant.addSecs (24 * 3600)
         else a.data.yggdrasilToken.notAfter) < 12 * 3600) := by
  simp [MinecraftAccount.shouldRefresh, MinecraftAccount.isInUse, hUse, hV]

/-- With both time bounds of the Yggdrasil token invalid, an account that is not in use and
has overall validity `Certain` is due for a refresh at every time: `secsTo` yields `0`. -/
theorem shouldRefresh_certain_no_timestamps (a : MinecraftAccount) (now : Int)
    (hUse : a.m_useCounter = 0) (hV : a.data.validity_ = Katabasis.Validity.Certain)
    (hI : a.data.yggdrasilToken.issueInstant = none)
    (hE : a.data.yggdrasilToken.notAfter = none) :
    a.shouldRefresh now = true := by
  rw [shouldRefresh_certain_eq a now hUse hV, hI, hE]
  simp [QDateTime.isValid, QDateTime.addSecs, QDateTime.secsTo]

/-- C6: an account with a positive use counter is never due for a refresh, whatever its
overall validity, the time bounds of its tokens and the current time. -/
theorem shouldRefresh_in_use (a : MinecraftAccount) (now : Int) (hUse : 0 < a.m_useCounter) :
    a.shouldRefresh now = false := by
  simp [MinecraftAccount.shouldRefresh, MinecraftAccount.isInUse, hUse]

/-- C6 at an account used once, with overall validity `Assumed` and a token that expired
long before the current time. -/
theorem shouldRefresh_in_use_witness :
    0 < (refreshSample Katabasis.Validity.Assumed 1 (some 0) (some 10)).m_useCounter ∧
    (refreshSample Katabasis.Validity.Assumed 1 (some 0) (some 10)).shouldRefresh 1000000
      = false :=
  ⟨by decide,
    shouldRefresh_in_use (refreshSample Katabasis.Validity.Assumed 1 (some 0) (some 10))
      1000000 (by decide)⟩

/-- C7: an account with use counter zero and overall validity `Assumed` is due for a
refresh, whatever the time bounds of its tokens (valid or not) and the current time. -/
theorem shouldRefresh_assumed (a : MinecraftAccount) (now : Int)
    (hUse : a.m_useCounter = 0) (hV : a.data.validity_ = Katabasis.Validity.Assumed) :
    a.shouldRefresh now = true := by
  simp [MinecraftAccount.shouldRefresh, MinecraftAccount.isInUse, hUse, hV]

/-- C7 at an account that is not in use, with overall validity `Assumed` and a token
issued at the current time without an expiry. -/
theorem shouldRefresh_assumed_witness :
    (refreshSample Katabasis.Validity.Assumed 0 (some 5000) none).m_useCounter = 0 ∧
    (refreshSample Katabasis.Validity.Assumed 0 (some 5000) none).data.validity_
      = Katabasis.Validity.Assumed ∧
    (refreshSample Katabasis.Validity.Assumed 0 (some 5000) none).shouldRefresh 5000 = true :=
  ⟨rfl, rfl,
    shouldRefresh_assumed (refreshSample Katabasis.Validity.Assumed 0 (some 5000) none)
      5000 rfl rfl⟩

/-- C8: an account with overall validity `None` is never due for a refresh, in use or
not, whatever the time bounds of its tokens and the current time. -/
theorem shouldRefresh_none (a : MinecraftAccount) (now : Int)
    (hV : a.data.validity_ = Katabasis.Validity.None) :
    a.shouldRefresh now = false := by
  simp only [MinecraftAccount.shouldRefresh, hV]
  split <;> rfl

/-- C8 at an account that is not in use, with overall validity `None` and a token that
expired long before the current time. -/
theorem shouldRefresh_none_witness :
    (refreshSample Katabasis.Validity.None 0 (some 0) (some 10)).data.validity_
      = Katabasis.Validity.None ∧
    (refreshSample Katabasis.Validity.None 0 (some 0) (some 10)).shouldRefresh 1000000
      = false :=
  ⟨rfl,
    shouldRefresh_none (refreshSample Katabasis.Validity.None 0 (some 0) (some 10))
      1000000 rfl⟩

/-- C9: on an account that is not in use and has overall validity `Certain`, with `expiry`
the `notAfter` of the Yggdrasil token when that is valid and otherwise its `issueInstant`
plus 86400 seconds, `shouldRefresh` is true exactly when `expiry - now < 43200`. So with
no `notAfter`, a token issued 13 hours before `now` is due, a token issued 1 hour before
`now` is not, and a token with exactly 43200 seconds left is not. -/
theorem shouldRefresh_certain_iff (a : MinecraftAccount) (now : Int)
    (hUse : a.m_useCounter = 0) (hV : a.data.validity_ = Katabasis.Validity.Certain) :
    (∀ expiry : Int,
      (a.data.yggdrasilToken.notAfter = some expiry ∨
        (a.data.yggdrasilToken.notAfter = none ∧
          ∃ issued : Int, a.data.yggdrasilToken.issueInstant = some issued ∧
            expiry = issued + 86400)) →
      ((a.shouldRefresh now = true ↔ expiry - now < 43200) ∧
        (expiry - now = 43200 → a.shouldRefresh now = false))) ∧
    (a.data.yggdrasilToken.notAfter = none →
      a.data.yggdrasilToken.issueInstant = some (now - 13 * 3600) →
      a.shouldRefresh now = true) ∧
    (a.data.yggdrasilToken.notAfter = none →
      a.data.yggdrasilToken.issueInstant = some (now - 1 * 3600) →
      a.shouldRefresh now = false) := by
  have key := shouldRefresh_certain_eq a now hUse hV
  refine ⟨?_, ?_, ?_⟩
  · intro expiry hE
    have hval : a.shouldRefresh now = decide (expiry - now < 43200) := by
      rw [key]
      rcases hE with h | ⟨h, issued, hi, he⟩
      · rw [h]
        simp [QDateTime.isValid, QDateTime.secsTo]
      · rw [h, hi, he]
        simp [QDateTime.isValid, QDateTime.addSecs, QDateTime.secsTo]
    rw [hval]
    refine ⟨by simp, fun h => ?_⟩
    rw [h]
    decide
  · intro hE hI
    rw [key, hE, hI]
    simp only [QDateTime.isValid, QDateTime.addSecs, QDateTime.secsTo, Option.isSome_none,
      Bool.not_false, if_true, decide_eq_true_eq]
    omega
  · intro hE hI
    rw [key, hE, hI]
    simp only [QDateTime.isValid, QDateTime.addSecs, QDateTime.secsTo, Option.isSome_none,
      Bool.not_false, if_true, decide_eq_false_iff_not]
    omega

/-- C9 at an account that is not in use, with overall validity `Certain`, whose token was
issued 13 hours before the current time 100000 and has no `notAfter`: 39600 seconds are
left, which is less than 43200, and the account is due for a refresh. -/
theorem shouldRefresh_certain_iff_witness :
    (refreshSample Katabasis.Validity.Certain 0 (some 53200) none).m_useCounter = 0 ∧
    (refreshSample Katabasis.Validity.Certain 0 (some 53200) none).data.validity_
      = Katabasis.Validity.Certain ∧
    ((refreshSample Katabasis.Validity.Certain 0 (some 53200) none).shouldRefresh 100000 = true
      ↔ (139600 : Int) - 100000 < 43200) ∧
    (refreshSample Katabasis.Validity.Certain 0 (some 53200) none).shouldRefresh 100000 = true :=
  ⟨rfl, rfl,
    ((shouldRefresh_certain_iff
        (refreshSample Katabasis.Validity.Certain 0 (some 53200) none) 100000 rfl rfl).1
      139600 (Or.inr ⟨rfl, 53200, rfl, rfl⟩)).1,
    (shouldRefresh_certain_iff
        (refreshSample Katabasis.Validity.Certain 0 (some 53200) none) 100000 rfl rfl).2.1
      rfl rfl⟩

/-! ## Session builder -/

/-- The status `fillSession` assigns, as a function of the account and the request. -/
theorem fillSession_status_eq (acc : Accessors) (a : MinecraftAccount) (session : AuthSession) :
    (a.fillSession acc session).2.status =
      if a.ownsMinecraft && !a.hasProfile then AuthSession.Status.RequiresProfileSetup
      else if session.wants_online then AuthSession.Status.PlayableOnline
      else AuthSession.Status.PlayableOffline := by
  unfold MinecraftAccount.fillSession
  by_cases h1 : (a.ownsMinecraft && !a.hasProfile) = true
  · by_cases h3 : (!(acc.accessToken a.data == "")) = true <;> simp [h1, h3]
  · by_cases h2 : session.wants_online = true <;>
      by_cases h3 : (!(acc.accessToken a.data == "")) = true <;> simp [h1, h2, h3]

/-- C10: the status `fillSession` sets is `RequiresProfileSetup` exactly when the
entitlement says the game is owned and the profile id is empty, for either value of
`wants_online`; in every other case it is `PlayableOnline` when `wants_online` is true
and `PlayableOffline` when it is false. -/
theorem fillSession_status (acc : Accessors) (a : MinecraftAccount) (session : AuthSession) :
    ((a.fillSession acc session).2.status = AuthSession.Status.RequiresProfileSetup ↔
      (a.data.minecraftEntitlement.ownsMinecraft = true ∧ a.data.minecraftProfile.id = "")) ∧
    (¬ (a.data.minecraftEntitlement.ownsMinecraft = true ∧ a.data.minecraftProfile.id = "") →
      ((session.wants_online = true →
          (a.fillSession acc session).2.status = AuthSession.Status.PlayableOnline) ∧
        (session.wants_online = false →
          (a.fillSession acc session).2.status = AuthSession.Status.PlayableOffline))) := by
  rw [fillSession_status_eq]
  have hc : (a.ownsMinecraft && !a.hasProfile) = true ↔
      (a.data.minecraftEntitlement.ownsMinecraft = true ∧ a.data.minecraftProfile.id = "") := by
    simp [MinecraftAccount.ownsMinecraft, MinecraftAccount.hasProfile, AccountData.profileId]
  by_cases h : (a.ownsMinecraft && !a.hasProfile) = true
  · have h2 := hc.mp h
    simp [h, h2]
  · have h2 : ¬ (a.data.minecraftEntitlement.ownsMinecraft = true ∧
        a.data.minecraftProfile.id = "") := fun hh => h (hc.mpr hh)
    rw [if_neg h]
    refine ⟨⟨fun hs => ?_, fun hh => absurd hh h2⟩, fun _ => ⟨fun hw => ?_, fun hw => ?_⟩⟩
    · by_cases hw : session.wants_online = true
      · rw [if_pos hw] at hs
        exact absurd hs (by decide)
      · rw [if_neg hw] at hs
        exact absurd hs (by decide)
    · rw [if_pos hw]
    · rw [hw]
      rfl

/-- C10 at an account that owns the game and has an empty profile id, for an online
request: the status is `RequiresProfileSetup`. -/
theorem fillSession_status_witness :
    ((refreshSample Katabasis.Validity.Certain 0 (some 0) none).fillSession sampleAccessors
      (blankSession true)).2.status ≠ AuthSession.Status.RequiresProfileSetup ∧
    (({ refreshSample Katabasis.Validity.Certain 0 (some 0) none with
        data := { sampleData AccountType.MSA with
                  minecraftProfile := { id := "", name := "", skin := [],
                                        validity := Katabasis.Validity.None } } } :
      MinecraftAccount).fillSession sampleAccessors (blankSession true)).2.status
      = AuthSession.Status.RequiresProfileSetup :=
  ⟨by decide,
    (fillSession_status sampleAccessors _ (blankSession true)).1.mpr ⟨rfl, rfl⟩⟩

/-- The fields `fillSession` copies from the account, and the ticket it builds, as
functions of the account alone. -/
theorem fillSession_fields (acc : Accessors) (a : MinecraftAccount) (session : AuthSession) :
    (a.fillSession acc session).2.username = acc.userName a.data ∧
    (a.fillSession acc session).2.access_token = acc.accessToken a.data ∧
    (a.fillSession acc session).2.client_token = acc.clientToken a.data ∧
    (a.fillSession acc session).2.player_name = acc.profileName a.data ∧
    (a.fillSession acc session).2.uuid = a.data.profileId ∧
    (a.fillSession acc session).2.user_type = acc.typeString a.data ∧
    (a.fillSession acc session).2.wants_online = session.wants_online ∧
    (a.fillSession acc session).2.session =
      if !(acc.accessToken a.data == "") then
        "token:" ++ acc.accessToken a.data ++ ":" ++ a.data.profileId
      else "-" := by
  unfold MinecraftAccount.fillSession
  by_cases h1 : (a.ownsMinecraft && !a.hasProfile) = true <;>
    by_cases h2 : session.wants_online = true <;>
      by_cases h3 : (!(acc.accessToken a.data == "")) = true <;> simp [h1, h2, h3]

/-- C11: the ticket `fillSession` stores in `session` is `"token:" ++ accessToken ++ ":" ++
profileId` when the access token of the record is not empty and the one-character string
`"-"` when it is empty, where `accessToken` and `profileId` are the values the same call
stores in `access_token` and `uuid`. -/
theorem fillSession_ticket (acc : Accessors) (a : MinecraftAccount) (session : AuthSession) :
    (a.fillSession acc session).2.access_token = acc.accessToken a.data ∧
    (a.fillSession acc session).2.uuid = a.data.profileId ∧
    (acc.accessToken a.data ≠ "" →
      (a.fillSession acc session).2.session =
        "token:" ++ (a.fillSession acc session).2.access_token ++ ":" ++
          (a.fillSession acc session).2.uuid) ∧
    (acc.accessToken a.data = "" →
      (a.fillSession acc session).2.session = "-" ∧
      (a.fillSession acc session).2.session.length = 1) := by
  obtain ⟨_, hA, _, _, hU, _, _, hS⟩ := fillSession_fields acc a session
  refine ⟨hA, hU, fun hne => ?_, fun he => ?_⟩
  · rw [hS, hA, hU]
    simp [hne]
  · rw [hS]
    have hc : (!(acc.accessToken a.data == "")) = false := by simp [he]
    rw [hc, if_neg (by decide)]
    exact ⟨rfl, by decide⟩

/-- C11 at a Mojang account whose access token is `"ygg-access"`, and at the same account
after a hard failure has emptied the access token. -/
theorem fillSession_ticket_witness :
    ((sampleAccount AccountType.Mojang AccountTaskState.STATE_WORKING).fillSession
        sampleAccessors (blankSession true)).2.session
      = "token:ygg-access:5627dd98e6be3c21b8a8e92344183641" ∧
    ((sampleAccount AccountType.Mojang AccountTaskState.STATE_WORKING).invalidateHard.fillSession
        sampleAccessors (blankSession true)).2.session = "-" :=
  ⟨((fillSession_ticket sampleAccessors
        (sampleAccount AccountType.Mojang AccountTaskState.STATE_WORKING)
        (blankSession true)).2.2.1 (by decide)).trans (by decide),
    ((fillSession_ticket sampleAccessors
        (sampleAccount AccountType.Mojang AccountTaskState.STATE_WORKING).invalidateHard
        (blankSession true)).2.2.2 (by decide)).1⟩

/-- C12: `fillSession` returns the account object it was called on, so the account record
(tokens, profile, entitlement, overall validity), the use counter, the task slot and the
signal log are as before the call; and two calls, the second on the account as the first
left it, for requests with the same `wants_online`, fill in equal sessions. -/
theorem fillSession_pure (acc : Accessors) (a : MinecraftAccount) (s1 s2 : AuthSession)
    (hW : s1.wants_online = s2.wants_online) :
    (a.fillSession acc s1).1 = a ∧
    (a.fillSession acc s1).1.data = a.data ∧
    (a.fillSession acc s1).1.m_useCounter = a.m_useCounter ∧
    (a.fillSession acc s1).1.m_currentTask = a.m_currentTask ∧
    (a.fillSession acc s1).1.signals = a.signals ∧
    ((a.fillSession acc s1).1.fillSession acc s2).2 = (a.fillSession acc s1).2 ∧
    (a.fillSession acc s2).2 = (a.fillSession acc s1).2 := by
  have h1 : (a.fillSession acc s1).1 = a := rfl
  have key : (a.fillSession acc s2).2 = (a.fillSession acc s1).2 := by
    obtain ⟨a1, a2, a3, a4, a5, a6, a7, a8⟩ := fillSession_fields acc a s1
    obtain ⟨b1, b2, b3, b4, b5, b6, b7, b8⟩ := fillSession_fields acc a s2
    have hst : (a.fillSession acc s2).2.status = (a.fillSession acc s1).2.status := by
      rw [fillSession_status_eq, fillSession_status_eq, hW]
    cases hx : (a.fillSession acc s1).2
    cases hy : (a.fillSession acc s2).2
    rw [hx] at a1 a2 a3 a4 a5 a6 a7 a8 hst
    rw [hy] at b1 b2 b3 b4 b5 b6 b7 b8 hst
    simp only at a1 a2 a3 a4 a5 a6 a7 a8 b1 b2 b3 b4 b5 b6 b7 b8 hst
    simp [a1, a2, a3, a4, a5, a6, a7, a8, b1, b2, b3, b4, b5, b6, b7, b8, hst, hW]
  refine ⟨h1, rfl, rfl, rfl, rfl, ?_, key⟩
  rw [h1]
  exact key

/-- C12 at an MSA account with a working task, for a blank online request and an online
request that was filled in before. -/
theorem fillSession_pure_witness :
    (blankSession true).wants_online =
      ({ blankSession true with username := "stale", session := "stale" } :
        AuthSession).wants_online ∧
    ((sampleAccount AccountType.MSA AccountTaskState.STATE_WORKING).fillSession
        sampleAccessors (blankSession true)).1
      = sampleAccount AccountType.MSA AccountTaskState.STATE_WORKING ∧
    ((sampleAccount AccountType.MSA AccountTaskState.STATE_WORKING).fillSession sampleAccessors
        { blankSession true with username := "stale", session := "stale" }).2
      = ((sampleAccount AccountType.MSA AccountTaskState.STATE_WORKING).fillSession
          sampleAccessors (blankSession true)).2 :=
  ⟨rfl,
    (fillSession_pure sampleAccessors
      (sampleAccount AccountType.MSA AccountTaskState.STATE_WORKING) (blankSession true)
      { blankSession true with username := "stale", session := "stale" } rfl).1,
    (fillSession_pure sampleAccessors
      (sampleAccount AccountType.MSA AccountTaskState.STATE_WORKING) (blankSession true)
      { blankSession true with username := "stale", session := "stale" } rfl).2.2.2.2.2.2⟩

/-! ## Starting and finishing tasks -/

/-- With the task slot occupied, `refresh` is the identity on the account and returns the
content of the slot. -/
theorem refresh_of_active (a : MinecraftAccount) (t : AccountTask)
    (hT : a.m_currentTask = some t) : a.refresh = (a, some t) := by
  unfold MinecraftAccount.refresh
  rw [hT]

/-- With the task slot empty, `refresh` stores a new task, emits `activityChanged(true)` and
returns the new task; the class of the task is the refresh class of the provider type. -/
theorem refresh_of_idle (a : MinecraftAccount) (hE : a.m_currentTask = none) :
    ∃ k, a.refresh =
        (({ a with m_currentTask := some (AccountTask.create k) } : MinecraftAccount).emit
            (Signal.activityChanged true),
          some (AccountTask.create k)) ∧
      (a.data.type = AccountType.MSA → k = TaskKind.MSASilent) ∧
      (a.data.type = AccountType.Mojang → k = TaskKind.MojangRefresh) ∧
      (a.data.type = AccountType.Local → k = TaskKind.LocalRefresh) ∧
      (a.data.type = AccountType.Elyby → k = TaskKind.ElybyRefresh) := by
  unfold MinecraftAccount.refresh
  rw [hE]
  cases h : a.data.type
  · exact ⟨TaskKind.MSASilent, rfl, by decide⟩
  · exact ⟨TaskKind.MojangRefresh, rfl, by decide⟩
  · exact ⟨TaskKind.LocalRefresh, rfl, by decide⟩
  · exact ⟨TaskKind.ElybyRefresh, rfl, by decide⟩

/-- With the task slot empty, each `login*` passes its check in a build with assertions and
has none to pass in a build without: it stores a new task of its own class, emits
`activityChanged(true)` and returns the new task. -/
theorem login_of_idle (asserts : Bool) (a : MinecraftAccount) (password : String)
    (hE : a.m_currentTask = none) :
    a.login asserts password =
      some (({ a with m_currentTask := some (AccountTask.create (TaskKind.MojangLogin password)) } :
          MinecraftAccount).emit (Signal.activityChanged true),
        AccountTask.create (TaskKind.MojangLogin password)) ∧
    a.loginMSA asserts =
      some (({ a with m_currentTask := some (AccountTask.create TaskKind.MSAInteractive) } :
          MinecraftAccount).emit (Signal.activityChanged true),
        AccountTask.create TaskKind.MSAInteractive) ∧
    a.loginLocal asserts =
      some (({ a with m_currentTask := some (AccountTask.create TaskKind.LocalLogin) } :
          MinecraftAccount).emit (Signal.activityChanged true),
        AccountTask.create TaskKind.LocalLogin) ∧
    a.loginElyby asserts password =
      some (({ a with m_currentTask := some (AccountTask.create (TaskKind.ElybyLogin password)) } :
          MinecraftAccount).emit (Signal.activityChanged true),
        AccountTask.create (TaskKind.ElybyLogin password)) := by
  cases asserts <;>
    simp [MinecraftAccount.login, MinecraftAccount.loginMSA, MinecraftAccount.loginLocal,
      MinecraftAccount.loginElyby, MinecraftAccount.Q_ASSERT, hE]

/-- With the task slot occupied, each `login*` fails its check in a build with
assertions. -/
theorem login_of_active (a : MinecraftAccount) (t : AccountTask) (password : String)
    (hT : a.m_currentTask = some t) :
    a.login true password = none ∧ a.loginMSA true = none ∧ a.loginLocal true = none ∧
      a.loginElyby true password = none := by
  simp [MinecraftAccount.login, MinecraftAccount.loginMSA, MinecraftAccount.loginLocal,
    MinecraftAccount.loginElyby, MinecraftAccount.Q_ASSERT, hT]

/-- In a build without assertions each `login*` stores a new task of its own class, emits
`activityChanged(true)` and returns the new task, whatever the task slot held. -/
theorem login_unchecked (a : MinecraftAccount) (password : String) :
    a.login false password =
      some (({ a with m_currentTask := some (AccountTask.create (TaskKind.MojangLogin password)) } :
          MinecraftAccount).emit (Signal.activityChanged true),
        AccountTask.create (TaskKind.MojangLogin password)) ∧
    a.loginMSA false =
      some (({ a with m_currentTask := some (AccountTask.create TaskKind.MSAInteractive) } :
          MinecraftAccount).emit (Signal.activityChanged true),
        AccountTask.create TaskKind.MSAInteractive) ∧
    a.loginLocal false =
      some (({ a with m_currentTask := some (AccountTask.create TaskKind.LocalLogin) } :
          MinecraftAccount).emit (Signal.activityChanged true),
        AccountTask.create TaskKind.LocalLogin) ∧
    a.loginElyby false password =
      some (({ a with m_currentTask := some (AccountTask.create (TaskKind.ElybyLogin password)) } :
          MinecraftAccount).emit (Signal.activityChanged true),
        AccountTask.create (TaskKind.ElybyLogin password)) := by
  simp [MinecraftAccount.login, MinecraftAccount.loginMSA, MinecraftAccount.loginLocal,
    MinecraftAccount.loginElyby, MinecraftAccount.Q_ASSERT]

/-- The task slot is empty after `authSucceeded`. -/
theorem authSucceeded_slot (a : MinecraftAccount) : a.authSucceeded.m_currentTask = none := rfl

/-- The task slot is empty after `authFailed`. -/
theorem authFailed_slot (a r : MinecraftAccount) (reason : String)
    (h : a.authFailed reason = some r) : r.m_currentTask = none := by
  unfold MinecraftAccount.authFailed at h
  cases hT : a.m_currentTask with
  | none => rw [hT] at h; cases h
  | some t =>
    rw [hT] at h
    simp only [Option.some.injEq] at h
    rw [← h]
    rfl

/-- C13: when the task slot holds a task `t`, `refresh` returns `t`, and the account object
after the call is the one before it: same task slot, same account record, same use counter,
and no signal added to the log. For every account, a second `refresh` right after a first
one returns the handle the first one returned, which is not null, and changes nothing. -/
theorem refresh_idempotent (a : MinecraftAccount) (t : AccountTask)
    (hT : a.m_currentTask = some t) :
    a.refresh.2 = some t ∧
    a.refresh.1 = a ∧
    a.refresh.1.m_currentTask = some t ∧
    a.refresh.1.data = a.data ∧
    a.refresh.1.m_useCounter = a.m_useCounter ∧
    a.refresh.1.signals = a.signals ∧
    (∀ b : MinecraftAccount,
      b.refresh.2 ≠ none ∧
      b.refresh.1.refresh.2 = b.refresh.2 ∧
      b.refresh.1.refresh.1 = b.refresh.1) := by
  have h := refresh_of_active a t hT
  refine ⟨by rw [h], by rw [h], by rw [h]; exact hT, by rw [h], by rw [h], by rw [h], ?_⟩
  intro b
  cases hb : b.m_currentTask with
  | some u =>
    have h1 := refresh_of_active b u hb
    rw [h1]
    simp only [h1]
    exact ⟨by simp, trivial, trivial⟩
  | none =>
    obtain ⟨k, h1, _⟩ := refresh_of_idle b hb
    rw [h1]
    have h2 := refresh_of_active
      (({ b with m_currentTask := some (AccountTask.create k) } : MinecraftAccount).emit
        (Signal.activityChanged true)) (AccountTask.create k) rfl
    simp only [h2]
    exact ⟨by simp, trivial, trivial⟩

/-- C13 at a Mojang account whose refresh task is working. -/
theorem refresh_idempotent_witness :
    (sampleAccount AccountType.Mojang AccountTaskState.STATE_WORKING).m_currentTask =
      some (sampleTask AccountType.Mojang AccountTaskState.STATE_WORKING) ∧
    (sampleAccount AccountType.Mojang AccountTaskState.STATE_WORKING).refresh.2 =
      some (sampleTask AccountType.Mojang AccountTaskState.STATE_WORKING) ∧
    (sampleAccount AccountType.Mojang AccountTaskState.STATE_WORKING).refresh.1 =
      sampleAccount AccountType.Mojang AccountTaskState.STATE_WORKING ∧
    (idleAccount AccountType.Mojang 0).refresh.1.refresh.2 =
      (idleAccount AccountType.Mojang 0).refresh.2 :=
  ⟨rfl,
    (refresh_idempotent (sampleAccount AccountType.Mojang AccountTaskState.STATE_WORKING)
      (sampleTask AccountType.Mojang AccountTaskState.STATE_WORKING) rfl).1,
    (refresh_idempotent (sampleAccount AccountType.Mojang AccountTaskState.STATE_WORKING)
      (sampleTask AccountType.Mojang AccountTaskState.STATE_WORKING) rfl).2.1,
    ((refresh_idempotent (sampleAccount AccountType.Mojang AccountTaskState.STATE_WORKING)
      (sampleTask AccountType.Mojang AccountTaskState.STATE_WORKING) rfl).2.2.2.2.2.2
        (idleAccount AccountType.Mojang 0)).2.1⟩

/-- C14, as the claim states it, fails in a build with `QT_NO_DEBUG`, where `Q_ASSERT`
expands to nothing: on an Elyby account whose refresh task is working, `loginElyby` returns
a handle, the slot afterwards holds the new `ElybyLogin` task in place of the working task,
and `activityChanged(true)` has been emitted. -/
theorem login_unchecked_replaces_task :
    (sampleAccount AccountType.Elyby AccountTaskState.STATE_WORKING).m_currentTask =
      some (sampleTask AccountType.Elyby AccountTaskState.STATE_WORKING) ∧
    (sampleAccount AccountType.Elyby AccountTaskState.STATE_WORKING).signals = [] ∧
    ∃ r h, (sampleAccount AccountType.Elyby AccountTaskState.STATE_WORKING).loginElyby false
          "hunter2" = some (r, h) ∧
      r.m_currentTask = some h ∧
      h = AccountTask.create (TaskKind.ElybyLogin "hunter2") ∧
      h ≠ sampleTask AccountType.Elyby AccountTaskState.STATE_WORKING ∧
      r.signals = [Signal.activityChanged true] :=
  ⟨rfl, rfl, _, _, rfl, rfl, rfl, by decide, rfl⟩

/-- C14 (amended): when the task slot of `a` holds a task, then in a build with assertions
each of `login`, `loginMSA`, `loginLocal` and `loginElyby` fails its `Q_ASSERT` and has no
result: no handle is returned and there is no account state after the call in which the
task was replaced or a signal emitted; in a build with `QT_NO_DEBUG` none of them is
rejected: each returns the handle of a newly built task of its class, the slot afterwards
holds that task, and `activityChanged(true)` is the one signal added to the log. When the
task slot of `b` is empty each of them, in either build, returns a handle, and the slot
afterwards holds exactly the returned task, newly built in the state `STATE_CREATED`. -/
theorem login_precondition (a b : MinecraftAccount) (t : AccountTask) (password : String)
    (hT : a.m_currentTask = some t) (hE : b.m_currentTask = none) :
    (a.login true password = none ∧ a.loginMSA true = none ∧ a.loginLocal true = none ∧
      a.loginElyby true password = none) ∧
    ((∃ r h, a.login false password = some (r, h) ∧ r.m_currentTask = some h ∧
        h = AccountTask.create (TaskKind.MojangLogin password) ∧
        r.signals = a.signals ++ [Signal.activityChanged true]) ∧
      (∃ r h, a.loginMSA false = some (r, h) ∧ r.m_currentTask = some h ∧
        h = AccountTask.create TaskKind.MSAInteractive ∧
        r.signals = a.signals ++ [Signal.activityChanged true]) ∧
      (∃ r h, a.loginLocal false = some (r, h) ∧ r.m_currentTask = some h ∧
        h = AccountTask.create TaskKind.LocalLogin ∧
        r.signals = a.signals ++ [Signal.activityChanged true]) ∧
      (∃ r h, a.loginElyby false password = some (r, h) ∧ r.m_currentTask = some h ∧
        h = AccountTask.create (TaskKind.ElybyLogin password) ∧
        r.signals = a.signals ++ [Signal.activityChanged true])) ∧
    (∀ asserts : Bool,
      (∃ r h, b.login asserts password = some (r, h) ∧ r.m_currentTask = some h ∧
        h.taskState = AccountTaskState.STATE_CREATED) ∧
      (∃ r h, b.loginMSA asserts = some (r, h) ∧ r.m_currentTask = some h ∧
        h.taskState = AccountTaskState.STATE_CREATED) ∧
      (∃ r h, b.loginLocal asserts = some (r, h) ∧ r.m_currentTask = some h ∧
        h.taskState = AccountTaskState.STATE_CREATED) ∧
      (∃ r h, b.loginElyby asserts password = some (r, h) ∧ r.m_currentTask = some h ∧
        h.taskState = AccountTaskState.STATE_CREATED)) := by
  obtain ⟨u1, u2, u3, u4⟩ := login_unchecked a password
  refine ⟨login_of_active a t password hT,
    ⟨⟨_, _, u1, rfl, rfl, rfl⟩, ⟨_, _, u2, rfl, rfl, rfl⟩, ⟨_, _, u3, rfl, rfl, rfl⟩,
      ⟨_, _, u4, rfl, rfl, rfl⟩⟩, fun asserts => ?_⟩
  obtain ⟨h1, h2, h3, h4⟩ := login_of_idle asserts b password hE
  exact ⟨⟨_, _, h1, rfl, rfl⟩, ⟨_, _, h2, rfl, rfl⟩, ⟨_, _, h3, rfl, rfl⟩, ⟨_, _, h4, rfl, rfl⟩⟩

/-- C14 (amended) at an Elyby account with a working task and at an idle Elyby account. -/
theorem login_precondition_witness :
    (sampleAccount AccountType.Elyby AccountTaskState.STATE_WORKING).m_currentTask =
      some (sampleTask AccountType.Elyby AccountTaskState.STATE_WORKING) ∧
    (idleAccount AccountType.Elyby 0).m_currentTask = none ∧
    (sampleAccount AccountType.Elyby AccountTaskState.STATE_WORKING).loginElyby true "hunter2"
      = none ∧
    (∃ r h, (idleAccount AccountType.Elyby 0).loginElyby true "hunter2" = some (r, h) ∧
      r.m_currentTask = some h ∧ h.taskState = AccountTaskState.STATE_CREATED) ∧
    ∃ r h, (idleAccount AccountType.Elyby 0).loginElyby false "hunter2" = some (r, h) ∧
      r.m_currentTask = some h ∧ h.taskState = AccountTaskState.STATE_CREATED :=
  ⟨rfl, rfl,
    (login_precondition (sampleAccount AccountType.Elyby AccountTaskState.STATE_WORKING)
      (idleAccount AccountType.Elyby 0)
      (sampleTask AccountType.Elyby AccountTaskState.STATE_WORKING) "hunter2" rfl rfl).1.2.2.2,
    ((login_precondition (sampleAccount AccountType.Elyby AccountTaskState.STATE_WORKING)
      (idleAccount AccountType.Elyby 0)
      (sampleTask AccountType.Elyby AccountTaskState.STATE_WORKING) "hunter2" rfl rfl).2.2
        true).2.2.2,
    ((login_precondition (sampleAccount AccountType.Elyby AccountTaskState.STATE_WORKING)
      (idleAccount AccountType.Elyby 0)
      (sampleTask AccountType.Elyby AccountTaskState.STATE_WORKING) "hunter2" rfl rfl).2.2
        false).2.2.2⟩

/-- C15: when the task slot holds a task, in whatever state, the slot is empty after
`authSucceeded` and after `authFailed`, which returns: `currentTask` gives no handle and
`isActive` is false. On the account either handler leaves, `login`, `loginMSA`,
`loginLocal`, `loginElyby` and `refresh` each start a task in the state `STATE_CREATED`, in
a build with assertions and in one without. -/
theorem completion_clears_slot (asserts : Bool) (a : MinecraftAccount) (t : AccountTask)
    (reason : String) (password : String) (hT : a.m_currentTask = some t) :
    (a.authSucceeded.currentTask = none ∧ a.authSucceeded.isActive = false) ∧
    (∃ r, a.authFailed reason = some r ∧ r.currentTask = none ∧ r.isActive = false) ∧
    (∀ r, (r = a.authSucceeded ∨ a.authFailed reason = some r) →
      (∃ q h, r.login asserts password = some (q, h) ∧ q.currentTask = some h ∧
        h.taskState = AccountTaskState.STATE_CREATED) ∧
      (∃ q h, r.loginMSA asserts = some (q, h) ∧ q.currentTask = some h ∧
        h.taskState = AccountTaskState.STATE_CREATED) ∧
      (∃ q h, r.loginLocal asserts = some (q, h) ∧ q.currentTask = some h ∧
        h.taskState = AccountTaskState.STATE_CREATED) ∧
      (∃ q h, r.loginElyby asserts password = some (q, h) ∧ q.currentTask = some h ∧
        h.taskState = AccountTaskState.STATE_CREATED) ∧
      (∃ h, r.refresh.2 = some h ∧ r.refresh.1.currentTask = some h ∧
        h.taskState = AccountTaskState.STATE_CREATED)) := by
  refine ⟨⟨rfl, rfl⟩, ?_, ?_⟩
  · have h := authFailed_eq_of_task a t reason hT
    exact ⟨_, h, rfl, rfl⟩
  · intro r hr
    have hs : r.m_currentTask = none := by
      rcases hr with h | h
      · rw [h]
        rfl
      · exact authFailed_slot a r reason h
    obtain ⟨h1, h2, h3, h4⟩ := login_of_idle asserts r password hs
    obtain ⟨k, h5, _⟩ := refresh_of_idle r hs
    refine ⟨⟨_, _, h1, rfl, rfl⟩, ⟨_, _, h2, rfl, rfl⟩, ⟨_, _, h3, rfl, rfl⟩,
      ⟨_, _, h4, rfl, rfl⟩, ⟨AccountTask.create k, ?_, ?_, rfl⟩⟩
    · rw [h5]
    · rw [h5]
      rfl

/-- C15 at a Local account whose task has failed softly: after the handler the slot is
empty and the next `refresh` starts a task. -/
theorem completion_clears_slot_witness :
    (sampleAccount AccountType.Local AccountTaskState.STATE_FAILED_SOFT).m_currentTask =
      some (sampleTask AccountType.Local AccountTaskState.STATE_FAILED_SOFT) ∧
    (sampleAccount AccountType.Local AccountTaskState.STATE_FAILED_SOFT).authSucceeded.isActive
      = false ∧
    ∃ r, (sampleAccount AccountType.Local AccountTaskState.STATE_FAILED_SOFT).authFailed
        "Timed out." = some r ∧ r.currentTask = none ∧ r.isActive = false :=
  ⟨rfl,
    (completion_clears_slot true (sampleAccount AccountType.Local AccountTaskState.STATE_FAILED_SOFT)
      (sampleTask AccountType.Local AccountTaskState.STATE_FAILED_SOFT) "Timed out." "" rfl).1.2,
    (completion_clears_slot true (sampleAccount AccountType.Local AccountTaskState.STATE_FAILED_SOFT)
      (sampleTask AccountType.Local AccountTaskState.STATE_FAILED_SOFT) "Timed out." "" rfl).2.1⟩

/-! ## Notifications of the completion handlers -/

/-- C18, as the claim states it, fails on an MSA account whose task has failed softly: the
log was empty before, `authFailed` returns, and the log afterwards is
`[activityChanged(false)]`, which is not `[changed, activityChanged(false)]`. -/
theorem authFailed_soft_emits_no_changed :
    (sampleAccount AccountType.MSA AccountTaskState.STATE_FAILED_SOFT).m_currentTask.map
        AccountTask.taskState = some AccountTaskState.STATE_FAILED_SOFT ∧
    (sampleAccount AccountType.MSA AccountTaskState.STATE_FAILED_SOFT).signals = [] ∧
    ∃ r, (sampleAccount AccountType.MSA AccountTaskState.STATE_FAILED_SOFT).authFailed
          "Too many requests." = some r ∧
      r.signals = [Signal.activityChanged false] ∧
      r.signals ≠ [Signal.changed, Signal.activityChanged false] :=
  ⟨rfl, rfl, _, rfl, rfl, by decide⟩

/-- C18 (amended): when the task slot holds a task, the signals `authSucceeded` adds to the
log are `changed` and then `activityChanged(false)`; `authFailed` returns, and the signals
it adds are `changed` and then `activityChanged(false)` when the task is in
`STATE_FAILED_HARD` or `STATE_FAILED_GONE`, and `activityChanged(false)` alone when the
task is in `STATE_OFFLINE`, `STATE_FAILED_MUST_MIGRATE` or `STATE_FAILED_SOFT`. -/
theorem completion_signals (a : MinecraftAccount) (t : AccountTask) (reason : String)
    (hT : a.m_currentTask = some t) :
    a.authSucceeded.signals = a.signals ++ [Signal.changed, Signal.activityChanged false] ∧
    ∃ r, a.authFailed reason = some r ∧
      (t.taskState = AccountTaskState.STATE_FAILED_HARD ∨
          t.taskState = AccountTaskState.STATE_FAILED_GONE →
        r.signals = a.signals ++ [Signal.changed, Signal.activityChanged false]) ∧
      (t.taskState = AccountTaskState.STATE_OFFLINE ∨
          t.taskState = AccountTaskState.STATE_FAILED_MUST_MIGRATE ∨
          t.taskState = AccountTaskState.STATE_FAILED_SOFT →
        r.signals = a.signals ++ [Signal.activityChanged false]) := by
  refine ⟨by simp [MinecraftAccount.authSucceeded, MinecraftAccount.emit],
    _, authFailed_eq_of_task a t reason hT, fun h => ?_, fun h => ?_⟩
  · rcases h with h | h <;> rw [h]
    · by_cases hm : a.isMSA = true <;>
        simp [MinecraftAccount.applyFailure, MinecraftAccount.invalidateHard,
          MinecraftAccount.emit, hm]
    · simp [MinecraftAccount.applyFailure, MinecraftAccount.emit]
  · rcases h with h | h | h <;> rw [h] <;> rfl

/-- C18 (amended) at a Mojang account whose task has failed hard. -/
theorem completion_signals_witness :
    (sampleAccount AccountType.Mojang AccountTaskState.STATE_FAILED_HARD).m_currentTask =
      some (sampleTask AccountType.Mojang AccountTaskState.STATE_FAILED_HARD) ∧
    (sampleAccount AccountType.Mojang AccountTaskState.STATE_FAILED_HARD).authSucceeded.signals
      = (sampleAccount AccountType.Mojang AccountTaskState.STATE_FAILED_HARD).signals ++
          [Signal.changed, Signal.activityChanged false] ∧
    ∃ r, (sampleAccount AccountType.Mojang AccountTaskState.STATE_FAILED_HARD).authFailed
          "Invalid token." = some r ∧
      r.signals = (sampleAccount AccountType.Mojang AccountTaskState.STATE_FAILED_HARD).signals ++
          [Signal.changed, Signal.activityChanged false] :=
  ⟨rfl,
    (completion_signals (sampleAccount AccountType.Mojang AccountTaskState.STATE_FAILED_HARD)
      (sampleTask AccountType.Mojang AccountTaskState.STATE_FAILED_HARD) "Invalid token."
      rfl).1,
    match (completion_signals
        (sampleAccount AccountType.Mojang AccountTaskState.STATE_FAILED_HARD)
        (sampleTask AccountType.Mojang AccountTaskState.STATE_FAILED_HARD) "Invalid token."
        rfl).2 with
    | ⟨r, hr, hHard, _⟩ => ⟨r, hr, hHard (Or.inl rfl)⟩⟩

/-! ## At most one task -/

/-- A newly created account has an empty task slot, use counter zero and no signal
emitted. -/
theorem created_account_idle (dflt : AccountData) (uuid clientUuid : QUuid) (now : Int)
    (username : String) :
    (MinecraftAccount.init dflt uuid).m_currentTask = none ∧
    (MinecraftAccount.createLocal dflt uuid clientUuid now username).m_currentTask = none ∧
    (MinecraftAccount.createElyby dflt uuid clientUuid username).m_currentTask = none ∧
    (MinecraftAccount.createLocal dflt uuid clientUuid now username).m_useCounter = 0 ∧
    (MinecraftAccount.createLocal dflt uuid clientUuid now username).signals = [] :=
  ⟨rfl, rfl, rfl, rfl, rfl⟩

/-- The shape of every change of the task slot by one operation: the slot is left as it
was, or it was empty and now holds a newly built task and the operation is a start, or it
held a task and is now empty and the operation is a completion. -/
theorem step_slot (asserts : Bool) (st : Step) (a r : MinecraftAccount)
    (h : st.apply asserts a = some r) :
    r.m_currentTask = a.m_currentTask ∨
    (a.m_currentTask = none ∧ (∃ k, r.m_currentTask = some (AccountTask.create k)) ∧
      (∀ d, st ≠ Step.authSucceeded d) ∧ (∀ s reason, st ≠ Step.authFailed s reason)) ∨
    ((∃ t, a.m_currentTask = some t) ∧ r.m_currentTask = none ∧
      ((∃ d, st = Step.authSucceeded d) ∨ (∃ s reason, st = Step.authFailed s reason))) := by
  cases hs : a.m_currentTask with
  | some t =>
    cases st with
    | login password => simp [Step.apply, hs] at h
    | loginMSA => simp [Step.apply, hs] at h
    | loginLocal => simp [Step.apply, hs] at h
    | loginElyby password => simp [Step.apply, hs] at h
    | refresh =>
      simp only [Step.apply, refresh_of_active a t hs, Option.some.injEq] at h
      rw [← h]
      exact Or.inl hs
    | authSucceeded d =>
      simp only [Step.apply, Option.some.injEq] at h
      rw [← h]
      exact Or.inr (Or.inr ⟨⟨t, rfl⟩, rfl, Or.inl ⟨d, rfl⟩⟩)
    | authFailed s reason =>
      simp only [Step.apply] at h
      exact Or.inr (Or.inr ⟨⟨t, rfl⟩, authFailed_slot _ r reason h,
        Or.inr ⟨s, reason, rfl⟩⟩)
  | none =>
    cases st with
    | login password =>
      have := (login_of_idle asserts a password hs).1
      simp only [Step.apply, hs, Option.isSome_none, Bool.false_eq_true, if_false, this,
        Option.map, Option.some.injEq] at h
      rw [← h]
      exact Or.inr (Or.inl ⟨rfl, ⟨_, rfl⟩, fun _ => Step.noConfusion,
        fun _ _ => Step.noConfusion⟩)
    | loginMSA =>
      have := (login_of_idle asserts a "" hs).2.1
      simp only [Step.apply, hs, Option.isSome_none, Bool.false_eq_true, if_false, this,
        Option.map, Option.some.injEq] at h
      rw [← h]
      exact Or.inr (Or.inl ⟨rfl, ⟨_, rfl⟩, fun _ => Step.noConfusion,
        fun _ _ => Step.noConfusion⟩)
    | loginLocal =>
      have := (login_of_idle asserts a "" hs).2.2.1
      simp only [Step.apply, hs, Option.isSome_none, Bool.false_eq_true, if_false, this,
        Option.map, Option.some.injEq] at h
      rw [← h]
      exact Or.inr (Or.inl ⟨rfl, ⟨_, rfl⟩, fun _ => Step.noConfusion,
        fun _ _ => Step.noConfusion⟩)
    | loginElyby password =>
      have := (login_of_idle asserts a password hs).2.2.2
      simp only [Step.apply, hs, Option.isSome_none, Bool.false_eq_true, if_false, this,
        Option.map, Option.some.injEq] at h
      rw [← h]
      exact Or.inr (Or.inl ⟨rfl, ⟨_, rfl⟩, fun _ => Step.noConfusion,
        fun _ _ => Step.noConfusion⟩)
    | refresh =>
      obtain ⟨k, hk, _⟩ := refresh_of_idle a hs
      simp only [Step.apply, hk, Option.some.injEq] at h
      rw [← h]
      exact Or.inr (Or.inl ⟨rfl, ⟨k, rfl⟩, fun _ => Step.noConfusion,
        fun _ _ => Step.noConfusion⟩)
    | authSucceeded d =>
      simp only [Step.apply, Option.some.injEq] at h
      rw [← h]
      exact Or.inl rfl
    | authFailed s reason =>
      simp [Step.apply, MinecraftAccount.authFailed, hs] at h

/-- The slot invariant is kept by every sequence of operations: a slot that is empty or
holds a task as a start operation built it stays so. -/
theorem runSteps_slot (asserts : Bool) (steps : List Step) (a r : MinecraftAccount)
    (hI : a.m_currentTask = none ∨ ∃ k, a.m_currentTask = some (AccountTask.create k))
    (h : runSteps asserts steps a = some r) :
    r.m_currentTask = none ∨ ∃ k, r.m_currentTask = some (AccountTask.create k) := by
  induction steps generalizing a with
  | nil =>
    simp only [runSteps, Option.some.injEq] at h
    rw [← h]
    exact hI
  | cons st rest ih =>
    simp only [runSteps] at h
    cases hs : st.apply asserts a with
    | none => rw [hs] at h; cases h
    | some a1 =>
      rw [hs] at h
      refine ih a1 ?_ h
      rcases step_slot asserts st a a1 hs with e | ⟨_, hk, _⟩ | ⟨_, hn, _⟩
      · rw [e]
        exact hI
      · exact Or.inr hk
      · exact Or.inl hn

/-- C19: in every state reached from an account with an empty task slot by a sequence of
`login`, `loginMSA`, `loginLocal`, `loginElyby`, `refresh`, `authSucceeded` and
`authFailed` operations (each `login*` guarded by its precondition), in a build with
assertions or without, the slot is empty
or holds one task, the one a start operation built; and every further operation leaves the
slot as it is, or takes it from empty to a newly built task (the operation is then a
`login*` or a `refresh`), or takes it from a task to empty (the operation is then a
completion): a held task is never replaced by another task. -/
theorem single_task_invariant (asserts : Bool) (a0 : MinecraftAccount) (steps : List Step)
    (a : MinecraftAccount) (h0 : a0.m_currentTask = none)
    (hR : runSteps asserts steps a0 = some a) :
    (a.m_currentTask = none ∨ ∃ k, a.m_currentTask = some (AccountTask.create k)) ∧
    ∀ (st : Step) (r : MinecraftAccount), st.apply asserts a = some r →
      (r.m_currentTask = a.m_currentTask ∨
        (a.m_currentTask = none ∧ (∃ k, r.m_currentTask = some (AccountTask.create k)) ∧
          (∀ d, st ≠ Step.authSucceeded d) ∧ (∀ s reason, st ≠ Step.authFailed s reason)) ∨
        ((∃ t, a.m_currentTask = some t) ∧ r.m_currentTask = none ∧
          ((∃ d, st = Step.authSucceeded d) ∨ (∃ s reason, st = Step.authFailed s reason)))) ∧
      ¬ (∃ t u, a.m_currentTask = some t ∧ r.m_currentTask = some u ∧ u ≠ t) := by
  refine ⟨runSteps_slot asserts steps a0 a (Or.inl h0) hR, fun st r hr => ?_⟩
  have hs := step_slot asserts st a r hr
  refine ⟨hs, ?_⟩
  rintro ⟨t, u, ht, hu, hne⟩
  rcases hs with e | ⟨hn, _⟩ | ⟨_, hn, _⟩
  · rw [ht, hu] at e
    exact hne (Option.some.inj e)
  · rw [ht] at hn
    cases hn
  · rw [hu] at hn
    cases hn

/-- C19 at an idle Mojang account after a refresh, a soft failure of it and a login, in a
build without assertions: the slot holds the login task, and a further `refresh` leaves
the slot as it is. -/
theorem single_task_invariant_witness :
    (idleAccount AccountType.Mojang 0).m_currentTask = none ∧
    runSteps false
        [Step.refresh, Step.authFailed AccountTaskState.STATE_FAILED_SOFT "Timed out.",
          Step.login "hunter2"]
        (idleAccount AccountType.Mojang 0)
      = some
          { idleAccount AccountType.Mojang 0 with
            m_currentTask := some (AccountTask.create (TaskKind.MojangLogin "hunter2"))
            signals :=
              [Signal.activityChanged true, Signal.activityChanged false,
                Signal.activityChanged true] } ∧
    ¬ (∃ t u,
        ({ idleAccount AccountType.Mojang 0 with
            m_currentTask := some (AccountTask.create (TaskKind.MojangLogin "hunter2"))
            signals :=
              [Signal.activityChanged true, Signal.activityChanged false,
                Signal.activityChanged true] } : MinecraftAccount).m_currentTask = some t ∧
        ({ idleAccount AccountType.Mojang 0 with
            m_currentTask := some (AccountTask.create (TaskKind.MojangLogin "hunter2"))
            signals :=
              [Signal.activityChanged true, Signal.activityChanged false,
                Signal.activityChanged true] } : MinecraftAccount).refresh.1.m_currentTask
          = some u ∧ u ≠ t) :=
  ⟨rfl, rfl,
    ((single_task_invariant false (idleAccount AccountType.Mojang 0)
        [Step.refresh, Step.authFailed AccountTaskState.STATE_FAILED_SOFT "Timed out.",
          Step.login "hunter2"]
        _ rfl rfl).2 Step.refresh _ rfl).2⟩

/-! ## Which task is built -/

/-- C20, as the claim states it, fails on an idle Elyby account: `login`, in a build with
assertions and in one without, builds and stores a `MojangLogin` task, not the `ElybyLogin`
that matches the provider type. -/
theorem login_on_elyby_builds_mojang_task :
    (idleAccount AccountType.Elyby 0).m_currentTask = none ∧
    (idleAccount AccountType.Elyby 0).data.type = AccountType.Elyby ∧
    (∃ r h, (idleAccount AccountType.Elyby 0).login true "hunter2" = some (r, h) ∧
      r.m_currentTask = some h ∧
      h.kind = TaskKind.MojangLogin "hunter2" ∧
      h.kind ≠ TaskKind.ElybyLogin "hunter2") ∧
    ∃ r h, (idleAccount AccountType.Elyby 0).login false "hunter2" = some (r, h) ∧
      r.m_currentTask = some h ∧
      h.kind = TaskKind.MojangLogin "hunter2" ∧
      h.kind ≠ TaskKind.ElybyLogin "hunter2" :=
  ⟨rfl, rfl, ⟨_, _, rfl, rfl, rfl, by decide⟩, _, _, rfl, rfl, rfl, by decide⟩

/-- C20 (amended): with the task slot empty, in a build with assertions or without,
`login` builds and stores a `MojangLogin` task
with the given password and `loginElyby` an `ElybyLogin` task with the given password,
each whatever the provider type of the record; `refresh` builds and stores the refresh
task of the provider type: `MSASilent` for MSA, `MojangRefresh` for Mojang, `LocalRefresh`
for Local, `ElybyRefresh` for Elyby. -/
theorem start_task_kind (asserts : Bool) (a : MinecraftAccount) (password : String)
    (hE : a.m_currentTask = none) :
    (∃ r h, a.login asserts password = some (r, h) ∧ r.m_currentTask = some h ∧
      h.kind = TaskKind.MojangLogin password) ∧
    (∃ r h, a.loginElyby asserts password = some (r, h) ∧ r.m_currentTask = some h ∧
      h.kind = TaskKind.ElybyLogin password) ∧
    (∃ h, a.refresh.2 = some h ∧ a.refresh.1.m_currentTask = some h ∧
      (a.data.type = AccountType.MSA → h.kind = TaskKind.MSASilent) ∧
      (a.data.type = AccountType.Mojang → h.kind = TaskKind.MojangRefresh) ∧
      (a.data.type = AccountType.Local → h.kind = TaskKind.LocalRefresh) ∧
      (a.data.type = AccountType.Elyby → h.kind = TaskKind.ElybyRefresh)) := by
  obtain ⟨h1, _, _, h4⟩ := login_of_idle asserts a password hE
  obtain ⟨k, h5, k1, k2, k3, k4⟩ := refresh_of_idle a hE
  refine ⟨⟨_, _, h1, rfl, rfl⟩, ⟨_, _, h4, rfl, rfl⟩, AccountTask.create k, ?_, ?_,
    k1, k2, k3, k4⟩
  · rw [h5]
  · rw [h5]
    rfl

/-- C20 (amended) at an idle Elyby account. -/
theorem start_task_kind_witness :
    (idleAccount AccountType.Elyby 0).m_currentTask = none ∧
    (∃ r h, (idleAccount AccountType.Elyby 0).loginElyby true "hunter2" = some (r, h) ∧
      r.m_currentTask = some h ∧ h.kind = TaskKind.ElybyLogin "hunter2") ∧
    ∃ h, (idleAccount AccountType.Elyby 0).refresh.2 = some h ∧
      h.kind = TaskKind.ElybyRefresh :=
  ⟨rfl,
    (start_task_kind true (idleAccount AccountType.Elyby 0) "hunter2" rfl).2.1,
    match (start_task_kind true (idleAccount AccountType.Elyby 0) "hunter2" rfl).2.2 with
    | ⟨h, hh, _, _, _, _, hElyby⟩ => ⟨h, hh, hElyby rfl⟩⟩

/-! ## Offline profile ids -/

/-- The digest is the sixteen little-endian bytes of the four words of the final state. -/
theorem Md5.hash_bytes (msg : List Nat) :
    ∃ r : Md5.State, Md5.hash msg =
      [r.a % 256, r.a / 256 % 256, r.a / 65536 % 256, r.a / 16777216 % 256,
        r.b % 256, r.b / 256 % 256, r.b / 65536 % 256, r.b / 16777216 % 256,
        r.c % 256, r.c / 256 % 256, r.c / 65536 % 256, r.c / 16777216 % 256,
        r.d % 256, r.d / 256 % 256, r.d / 65536 % 256, r.d / 16777216 % 256] :=
  ⟨_, rfl⟩

/-- The digest has 16 bytes. -/
theorem Md5.hash_length (msg : List Nat) : (Md5.hash msg).length = 16 := by
  obtain ⟨r, hr⟩ := Md5.hash_bytes msg
  rw [hr]
  rfl

/-- Every byte of the digest is below 256. -/
theorem Md5.hash_lt (msg : List Nat) : ∀ b ∈ Md5.hash msg, b < 256 := by
  obtain ⟨r, hr⟩ := Md5.hash_bytes msg
  rw [hr]
  intro b hb
  simp only [List.mem_cons, List.mem_singleton, List.not_mem_nil, or_false] at hb
  rcases hb with h | h | h | h | h | h | h | h | h | h | h | h | h | h | h | h <;>
    (rw [h]; exact Nat.mod_lt _ (by decide))

set_option maxRecDepth 100000 in
/-- Forcing the version bits of a byte: the result is a byte whose high nibble is 3. -/
theorem version_bits : ∀ b < 256, (b &&& 0x0f ||| 0x30) < 256 ∧ (b &&& 0x0f ||| 0x30) / 16 = 3 ∧
    (b &&& 0x0f ||| 0x30) % 16 = b % 16 := by
  decide

set_option maxRecDepth 100000 in
/-- Forcing the variant bits of a byte: the result is a byte whose two high bits are 1, 0. -/
theorem variant_bits : ∀ b < 256, (b &&& 0x3f ||| 0x80) < 256 ∧ (b &&& 0x3f ||| 0x80) / 64 = 2 ∧
    (b &&& 0x3f ||| 0x80) % 64 = b % 64 := by
  decide

/-- The bytes of the UUID of a user name, in terms of the digest. -/
theorem uuidFromUsername_bytes (username : String) :
    (uuidFromUsername username).bytes =
      ((Md5.hash (toUtf8 ("OfflinePlayer:" ++ username))).set 6
          ((Md5.hash (toUtf8 ("OfflinePlayer:" ++ username))).getD 6 0 &&& 0x0f ||| 0x30)).set 8
        ((Md5.hash (toUtf8 ("OfflinePlayer:" ++ username))).getD 8 0 &&& 0x3f ||| 0x80) := by
  unfold uuidFromUsername
  obtain ⟨r, hr⟩ := Md5.hash_bytes (toUtf8 ("OfflinePlayer:" ++ username))
  simp only [hr]
  rfl

/-- A hexadecimal digit is neither a brace nor a dash. -/
theorem hexDigit_kept : ∀ n < 16,
    (!(hexDigit n == Char.ofNat 123 || hexDigit n == Char.ofNat 125 ||
      hexDigit n == Char.ofNat 45)) = true := by
  decide

/-- The digits of a byte followed by the digits of the rest. -/
theorem hexChars_cons (b : Nat) (bs : List Nat) :
    hexChars (b :: bs) = hexDigit (b / 16) :: hexDigit (b % 16) :: hexChars bs := rfl

/-- The digits of two byte strings in a row. -/
theorem hexChars_append (xs ys : List Nat) :
    hexChars (xs ++ ys) = hexChars xs ++ hexChars ys := by
  induction xs with
  | nil => rfl
  | cons x xs ih => simp [hexChars_cons, ih]

/-- Dropping braces and dashes leaves the digits of bytes alone. -/
theorem filter_hexChars (bs : List Nat) (hb : ∀ b ∈ bs, b < 256) :
    (hexChars bs).filter (fun c =>
      !(c == Char.ofNat 123 || c == Char.ofNat 125 || c == Char.ofNat 45)) = hexChars bs := by
  induction bs with
  | nil => rfl
  | cons x xs ih =>
    have hx : x < 256 := hb x (List.mem_cons_self x xs)
    have h1 := hexDigit_kept (x / 16) (by omega)
    have h2 := hexDigit_kept (x % 16) (by omega)
    rw [hexChars_cons]
    simp only [List.filter_cons, h1, h2, if_true]
    rw [ih (fun b hm => hb b (List.mem_cons_of_mem x hm))]

/-- A list of 16 elements is its groups of 4, 2, 2, 2 and 6 elements in a row. -/
theorem groups_of_sixteen (l : List Nat) (hl : l.length = 16) :
    l.take 4 ++ ((l.drop 4).take 2 ++ ((l.drop 6).take 2 ++ ((l.drop 8).take 2 ++
      (l.drop 10).take 6))) = l := by
  match l, hl with
  | [_, _, _, _, _, _, _, _, _, _, _, _, _, _, _, _], _ => rfl

/-- The text of a UUID with braces and dashes removed is the 32 hexadecimal digits of its
16 bytes. -/
theorem strip_toString (u : QUuid) (hl : u.bytes.length = 16) (hb : ∀ b ∈ u.bytes, b < 256) :
    removeBracesAndDashes u.toString = String.mk (hexChars u.bytes) := by
  have hk : ∀ (n : Nat) (l : List Nat), ∀ b ∈ (l.drop n).take 6, b ∈ l := fun n l b h =>
    List.mem_of_mem_drop (List.mem_of_mem_take h)
  have f1 := filter_hexChars (u.bytes.take 4) (fun b h => hb b (List.mem_of_mem_take h))
  have f2 := filter_hexChars ((u.bytes.drop 4).take 2)
    (fun b h => hb b (List.mem_of_mem_drop (List.mem_of_mem_take h)))
  have f3 := filter_hexChars ((u.bytes.drop 6).take 2)
    (fun b h => hb b (List.mem_of_mem_drop (List.mem_of_mem_take h)))
  have f4 := filter_hexChars ((u.bytes.drop 8).take 2)
    (fun b h => hb b (List.mem_of_mem_drop (List.mem_of_mem_take h)))
  have f5 := filter_hexChars ((u.bytes.drop 10).take 6) (fun b h => hb b (hk 10 _ b h))
  have hg := congrArg hexChars (groups_of_sixteen u.bytes hl)
  simp only [hexChars_append] at hg
  have hbr1 : [Char.ofNat 123].filter (fun c =>
      !(c == Char.ofNat 123 || c == Char.ofNat 125 || c == Char.ofNat 45)) = [] := by decide
  have hbr2 : [Char.ofNat 125].filter (fun c =>
      !(c == Char.ofNat 123 || c == Char.ofNat 125 || c == Char.ofNat 45)) = [] := by decide
  have hd : [Char.ofNat 45].filter (fun c =>
      !(c == Char.ofNat 123 || c == Char.ofNat 125 || c == Char.ofNat 45)) = [] := by decide
  unfold removeBracesAndDashes QUuid.toString
  simp only [List.filter_append, f1, f2, f3, f4, f5, hbr1, hbr2, hd, List.nil_append,
    List.append_nil, List.append_assoc]
  rw [hg]

/-- The UUID of a user name has 16 bytes, each below 256. -/
theorem uuidFromUsername_wf (username : String) :
    (uuidFromUsername username).bytes.length = 16 ∧
      ∀ b ∈ (uuidFromUsername username).bytes, b < 256 := by
  have hl := Md5.hash_length (toUtf8 ("OfflinePlayer:" ++ username))
  have hlt := Md5.hash_lt (toUtf8 ("OfflinePlayer:" ++ username))
  have h6 : (Md5.hash (toUtf8 ("OfflinePlayer:" ++ username))).getD 6 0 < 256 := by
    rw [List.getD_eq_getElem?_getD, List.getElem?_eq_getElem (by omega)]
    exact hlt _ (List.getElem_mem _)
  have h8 : (Md5.hash (toUtf8 ("OfflinePlayer:" ++ username))).getD 8 0 < 256 := by
    rw [List.getD_eq_getElem?_getD, List.getElem?_eq_getElem (by omega)]
    exact hlt _ (List.getElem_mem _)
  rw [uuidFromUsername_bytes]
  refine ⟨by simp [hl], fun b hb => ?_⟩
  rcases List.mem_or_eq_of_mem_set hb with h | h
  · rcases List.mem_or_eq_of_mem_set h with h | h
    · exact hlt b h
    · rw [h]
      exact (version_bits _ h6).1
  · rw [h]
    exact (variant_bits _ h8).1

/-- The profile id `createLocal` and `createElyby` store is the text of the UUID of the user
name without braces and dashes, whatever the other inputs. -/
theorem create_profile_id (dflt : AccountData) (uuid clientUuid : QUuid) (now : Int)
    (username : String) :
    (MinecraftAccount.createLocal dflt uuid clientUuid now username).data.minecraftProfile.id =
        removeBracesAndDashes (uuidFromUsername username).toString ∧
      (MinecraftAccount.createElyby dflt uuid clientUuid username).data.minecraftProfile.id =
        removeBracesAndDashes (uuidFromUsername username).toString :=
  ⟨rfl, rfl⟩

/-- C16: for every user name, with `digest` the MD5 digest of the UTF-8 bytes of
`"OfflinePlayer:"` followed by the user name and `bytes` the bytes of the UUID
`uuidFromUsername` returns: both have 16 bytes, byte 6 of `bytes` is `(b6 AND 0x0f) OR 0x30`
and byte 8 is `(b8 AND 0x3f) OR 0x80` for the bytes `b6`, `b8` of the digest, every other
byte is that of the digest, the high nibble of byte 6 is 3 (version 3) and the two high
bits of byte 8 are 1, 0 (the RFC 4122 variant). The profile id stored by `createLocal` and
the one stored by `createElyby` are both the 32 hexadecimal digits of `bytes`, whatever
the random UUIDs, the time and the default record of the call: the id depends on the user
name alone and the two factories agree. -/
theorem offline_profile_id (dflt dflt2 : AccountData) (uuid clientUuid uuid2 clientUuid2 : QUuid)
    (now : Int) (username : String) :
    ∃ digest bytes : List Nat,
      digest = Md5.hash (toUtf8 ("OfflinePlayer:" ++ username)) ∧
      bytes = (uuidFromUsername username).bytes ∧
      digest.length = 16 ∧
      bytes.length = 16 ∧
      bytes.getD 6 0 = ((digest.getD 6 0 &&& 0x0f) ||| 0x30) ∧
      bytes.getD 8 0 = ((digest.getD 8 0 &&& 0x3f) ||| 0x80) ∧
      (∀ i, i ≠ 6 → i ≠ 8 → bytes.getD i 0 = digest.getD i 0) ∧
      bytes.getD 6 0 / 16 = 3 ∧
      bytes.getD 8 0 / 64 = 2 ∧
      (MinecraftAccount.createLocal dflt uuid clientUuid now username).data.minecraftProfile.id
        = String.mk (hexChars bytes) ∧
      (MinecraftAccount.createElyby dflt2 uuid2 clientUuid2 username).data.minecraftProfile.id
        = String.mk (hexChars bytes) ∧
      (MinecraftAccount.createLocal dflt uuid clientUuid now username).data.minecraftProfile.id
        = (MinecraftAccount.createElyby dflt2 uuid2 clientUuid2
            username).data.minecraftProfile.id := by
  have hl := Md5.hash_length (toUtf8 ("OfflinePlayer:" ++ username))
  have hlt := Md5.hash_lt (toUtf8 ("OfflinePlayer:" ++ username))
  have h6 : (Md5.hash (toUtf8 ("OfflinePlayer:" ++ username))).getD 6 0 < 256 := by
    rw [List.getD_eq_getElem?_getD, List.getElem?_eq_getElem (by omega)]
    exact hlt _ (List.getElem_mem _)
  have h8 : (Md5.hash (toUtf8 ("OfflinePlayer:" ++ username))).getD 8 0 < 256 := by
    rw [List.getD_eq_getElem?_getD, List.getElem?_eq_getElem (by omega)]
    exact hlt _ (List.getElem_mem _)
  obtain ⟨wl, wb⟩ := uuidFromUsername_wf username
  have hid := strip_toString (uuidFromUsername username) wl wb
  have e6 : (uuidFromUsername username).bytes.getD 6 0 =
      ((Md5.hash (toUtf8 ("OfflinePlayer:" ++ username))).getD 6 0 &&& 0x0f ||| 0x30) := by
    rw [uuidFromUsername_bytes]
    simp [List.getD_eq_getElem?_getD, List.getElem?_set, hl]
  have e8 : (uuidFromUsername username).bytes.getD 8 0 =
      ((Md5.hash (toUtf8 ("OfflinePlayer:" ++ username))).getD 8 0 &&& 0x3f ||| 0x80) := by
    rw [uuidFromUsername_bytes]
    simp [List.getD_eq_getElem?_getD, List.getElem?_set, hl]
  refine ⟨_, _, rfl, rfl, hl, wl, e6, e8, ?_, ?_, ?_, ?_, ?_, ?_⟩
  · intro i i6 i8
    rw [uuidFromUsername_bytes]
    simp [List.getD_eq_getElem?_getD, List.getElem?_set, Ne.symm i6, Ne.symm i8]
  · rw [e6]
    exact (version_bits _ h6).2.1
  · rw [e8]
    exact (variant_bits _ h8).2.1
  · exact (create_profile_id dflt uuid clientUuid now username).1.trans hid
  · exact (create_profile_id dflt2 uuid2 clientUuid2 now username).2.trans hid
  · exact (create_profile_id dflt uuid clientUuid now username).1.trans
      (create_profile_id dflt2 uuid2 clientUuid2 now username).2.symm

set_option maxRecDepth 100000 in
/-- The bytes of the offline UUID of the user name `"Steve"`. -/
theorem uuidFromUsername_steve :
    (uuidFromUsername "Steve").bytes =
      [0x56, 0x27, 0xdd, 0x98, 0xe6, 0xbe, 0x3c, 0x21, 0xb8, 0xa8, 0xe9, 0x23, 0x44, 0x18,
        0x36, 0x41] := by
  decide

set_option maxRecDepth 100000 in
/-- C17: the UUID `uuidFromUsername` returns for `"Steve"` has the text
`5627dd98-e6be-3c21-b8a8-e92344183641` within braces, and the profile id `createLocal`
stores for `"Steve"` is `5627dd98e6be3c21b8a8e92344183641`, for every value of the inputs
that differ from run to run: the two random UUIDs, the current time and the default
record. -/
theorem steve_offline_uuid (dflt : AccountData) (uuid clientUuid : QUuid) (now : Int) :
    (uuidFromUsername "Steve").toString = "\x7b5627dd98-e6be-3c21-b8a8-e92344183641\x7d" ∧
    (MinecraftAccount.createLocal dflt uuid clientUuid now "Steve").data.minecraftProfile.id
      = "5627dd98e6be3c21b8a8e92344183641" := by
  have hb := uuidFromUsername_steve
  have h1 : (uuidFromUsername "Steve").toString =
      "\x7b5627dd98-e6be-3c21-b8a8-e92344183641\x7d" := by
    unfold QUuid.toString
    rw [hb]
    decide
  refine ⟨h1, ?_⟩
  rw [(create_profile_id dflt uuid clientUuid now "Steve").1, h1]
  decide
